import Mathlib

/-!
Flight simulator core: embedding and verified properties.

A shallow embedding of the simulation core of the flight simulator
(`vector3.hpp`, `atmosphere.cpp`, `aircraft.cpp`, `flight_dynamics.cpp`) and of
the keyboard handler (`input_handler.cpp`).

Modelling conventions.

* A C++ `double` is an element of a linearly ordered field `α` with a floor
  function (`ℚ` and `ℝ` are instances).  Arithmetic is exact: rounding,
  infinities and NaN are outside the model.
* Where the program divides by zero it computes NaN or an infinity; the model
  returns `0` there, so a value computed through such a division says nothing
  about the program.  The divisors that can vanish (`rateDivisor`) are named,
  and a theorem about `update` either does not depend on the derivative
  values or carries a hypothesis that fails for the program when a NaN is
  involved (a bound on the integrated value, `StagesDefined`).
* The two yaw loops are total in exact arithmetic.  On doubles the step
  `2.0 * M_PI` is absorbed for a yaw of very large magnitude; theorems about
  the loops' result are stated for a bounded yaw and give the iteration
  counts.
* The functions of `<cmath>` are not part of the repository.  They are a
  parameter `m : Libm α`; a theorem holds for every choice of `m`, or states
  as hypotheses the laws of the real functions it relies on.
* The mutable `Aircraft` object is passed explicitly: a method that writes to
  the aircraft returns the aircraft it leaves behind.
-/

namespace FlightSim

/-- The functions of `<cmath>` called by the simulator, taken as a parameter. -/
structure Libm (α : Type) where
  sqrt : α → α
  sin : α → α
  cos : α → α
  tan : α → α
  atan2 : α → α → α
  asin : α → α
  pow : α → α → α
  exp : α → α

section Model

variable {α : Type} [LinearOrderedField α]

/-- The macro `M_PI` of `<cmath>` (the decimal expansion written in `math.h`). -/
def M_PI : α := 3.14159265358979323846

/-! ## vector3.hpp -/

/-- The `struct Vector3`. -/
@[ext]
structure Vector3 (α : Type) where
  x : α
  y : α
  z : α
deriving DecidableEq

namespace Vector3

/-- The `Vector3::operator+`. -/
instance instAddVector3 : Add (Vector3 α) :=
  ⟨fun a v => ⟨a.x + v.x, a.y + v.y, a.z + v.z⟩⟩

/-- The `Vector3::operator-`. -/
instance instSubVector3 : Sub (Vector3 α) :=
  ⟨fun a v => ⟨a.x - v.x, a.y - v.y, a.z - v.z⟩⟩

/-- The `Vector3::operator*` (vector times scalar). -/
instance instHMulVector3 : HMul (Vector3 α) α (Vector3 α) :=
  ⟨fun a s => ⟨a.x * s, a.y * s, a.z * s⟩⟩

/-- The `Vector3::operator/` (vector divided by scalar). -/
instance instHDivVector3 : HDiv (Vector3 α) α (Vector3 α) :=
  ⟨fun a s => ⟨a.x / s, a.y / s, a.z / s⟩⟩

/-- The `Vector3::magnitude`. -/
def magnitude (m : Libm α) (a : Vector3 α) : α :=
  m.sqrt (a.x * a.x + a.y * a.y + a.z * a.z)

/-- The `Vector3::cross`. -/
def cross (a v : Vector3 α) : Vector3 α :=
  ⟨a.y * v.z - a.z * v.y, a.z * v.x - a.x * v.z, a.x * v.y - a.y * v.x⟩

end Vector3

/-! ## atmosphere.cpp -/

/-- The four output parameters of `Atmosphere::getProperties`. -/
structure AirProperties (α : Type) where
  density : α
  pressure : α
  temperature : α
  speedOfSound : α

namespace Atmosphere

def SEA_LEVEL_PRESSURE : α := 101325.0
def SEA_LEVEL_TEMPERATURE : α := 288.15
def SEA_LEVEL_DENSITY : α := 1.225
def TEMPERATURE_LAPSE_RATE : α := 0.0065
def GAS_CONSTANT : α := 287.05
def GAMMA : α := 1.4
def GRAVITY : α := 9.80665

/-- The method `Atmosphere::getProperties`. -/
def getProperties (m : Libm α) (altitude : α) : AirProperties α :=
  let altitude := if altitude < 0.0 then 0.0 else altitude
  if altitude ≤ 11000.0 then
    let temperature := SEA_LEVEL_TEMPERATURE - TEMPERATURE_LAPSE_RATE * altitude
    let tempQuot := temperature / SEA_LEVEL_TEMPERATURE
    let exponent := GRAVITY / (TEMPERATURE_LAPSE_RATE * GAS_CONSTANT)
    let pressure := SEA_LEVEL_PRESSURE * m.pow tempQuot exponent
    let density := pressure / (GAS_CONSTANT * temperature)
    { density := density, pressure := pressure, temperature := temperature,
      speedOfSound := m.sqrt (GAMMA * GAS_CONSTANT * temperature) }
  else
    let temperature : α := 216.65
    let h11 : α := 11000.0
    let T11 := SEA_LEVEL_TEMPERATURE - TEMPERATURE_LAPSE_RATE * h11
    let P11 := SEA_LEVEL_PRESSURE *
      m.pow (T11 / SEA_LEVEL_TEMPERATURE) (GRAVITY / (TEMPERATURE_LAPSE_RATE * GAS_CONSTANT))
    let pressure := P11 * m.exp (-GRAVITY * (altitude - h11) / (GAS_CONSTANT * temperature))
    let density := pressure / (GAS_CONSTANT * temperature)
    { density := density, pressure := pressure, temperature := temperature,
      speedOfSound := m.sqrt (GAMMA * GAS_CONSTANT * temperature) }

end Atmosphere

/-! ## aircraft.hpp / aircraft.cpp -/

/-- The `struct AircraftState`. -/
structure AircraftState (α : Type) where
  position : Vector3 α
  velocity : Vector3 α
  angularVelocity : Vector3 α
  roll : α
  pitch : α
  yaw : α
  elevator : α
  aileron : α
  rudder : α
  throttle : α
deriving DecidableEq

/-- The data members of `class Aircraft`: the stored state and the physical
constants. -/
structure Aircraft (α : Type) where
  state : AircraftState α
  mass : α
  wingArea : α
  wingSpan : α
  chord : α
  Ixx : α
  Iyy : α
  Izz : α
  Ixz : α
  maxThrust : α
deriving DecidableEq

namespace Aircraft

/-- The constructor `Aircraft::Aircraft()`. -/
def ctor : FlightSim.Aircraft α :=
  { state :=
      { position := ⟨0, 0, -1000⟩
        velocity := ⟨50, 0, 0⟩
        angularVelocity := ⟨0, 0, 0⟩
        roll := 0.0
        pitch := 0.0
        yaw := 0.0
        elevator := 0.0
        aileron := 0.0
        rudder := 0.0
        throttle := 0.5 }
    mass := 1043.0
    wingArea := 16.2
    wingSpan := 11.0
    chord := 1.47
    Ixx := 1285.3
    Iyy := 1824.9
    Izz := 2666.9
    Ixz := 0.0
    maxThrust := 2000.0 }

/-- The method `Aircraft::getAirspeed`. -/
def getAirspeed (m : Libm α) (a : FlightSim.Aircraft α) : α :=
  a.state.velocity.magnitude m

/-- The method `Aircraft::getAltitude`. -/
def getAltitude (a : FlightSim.Aircraft α) : α :=
  -a.state.position.z

/-- The method `Aircraft::getVerticalSpeed`. -/
def getVerticalSpeed (a : FlightSim.Aircraft α) : α :=
  -a.state.velocity.z

/-- The method `Aircraft::getAngleOfAttack`. -/
def getAngleOfAttack (m : Libm α) (a : FlightSim.Aircraft α) : α :=
  let u := a.state.velocity.x
  let w := a.state.velocity.z
  if u > 0.1 then m.atan2 w u else 0.0

/-- The method `Aircraft::getSideslip`. -/
def getSideslip (m : Libm α) (a : FlightSim.Aircraft α) : α :=
  let v := a.state.velocity.y
  let airspeed := getAirspeed m a
  if airspeed > 0.1 then m.asin (v / airspeed) else 0.0

/-- The method `Aircraft::getMachNumber`. -/
def getMachNumber (m : Libm α) (a : FlightSim.Aircraft α) : α :=
  getAirspeed m a / (Atmosphere.getProperties m (getAltitude a)).speedOfSound

/-- The method `Aircraft::getCL`. -/
def getCL (_a : FlightSim.Aircraft α) (alpha elevator : α) : α :=
  let CL0 : α := 0.28
  let CLalpha : α := 4.58
  let CLde : α := 0.36
  CL0 + CLalpha * alpha + CLde * elevator

/-- The method `Aircraft::getCD`. -/
def getCD (a : FlightSim.Aircraft α) (alpha : α) : α :=
  let CD0 : α := 0.027
  let K : α := 0.045
  let CL := getCL a alpha a.state.elevator
  CD0 + K * CL * CL

/-- The method `Aircraft::getCY`. -/
def getCY (_a : FlightSim.Aircraft α) (beta rudder : α) : α :=
  let CYbeta : α := -0.393
  let CYdr : α := 0.187
  CYbeta * beta + CYdr * rudder

/-- The divisor `2.0 * getAirspeed()` by which `getCl`, `getCm` and `getCn`
divide the dimensional rate.  It is zero at zero airspeed; the program then
computes NaN or an infinity, and the values of `getCl`, `getCm` and `getCn`
below are meaningful only where this divisor is not zero. -/
def rateDivisor (m : Libm α) (a : FlightSim.Aircraft α) : α :=
  2.0 * getAirspeed m a

/-- The method `Aircraft::getCl` (rolling moment). -/
def getCl (m : Libm α) (a : FlightSim.Aircraft α) (beta aileron rudder : α) : α :=
  let Clbeta : α := -0.074
  let Clda : α := 0.178
  let Cldr : α := 0.0147
  let Clp : α := -0.484
  let p := a.state.angularVelocity.x
  let pHat := p * a.wingSpan / rateDivisor m a
  Clbeta * beta + Clda * aileron + Cldr * rudder + Clp * pHat

/-- The method `Aircraft::getCm` (pitching moment). -/
def getCm (m : Libm α) (a : FlightSim.Aircraft α) (alpha elevator : α) : α :=
  let Cm0 : α := 0.04
  let Cmalpha : α := -0.613
  let Cmde : α := -1.122
  let Cmq : α := -12.4
  let q := a.state.angularVelocity.y
  let qHat := q * a.chord / rateDivisor m a
  Cm0 + Cmalpha * alpha + Cmde * elevator + Cmq * qHat

/-- The method `Aircraft::getCn` (yawing moment). -/
def getCn (m : Libm α) (a : FlightSim.Aircraft α) (beta aileron rudder : α) : α :=
  let Cnbeta : α := 0.071
  let Cnda : α := -0.0504
  let Cndr : α := -0.0805
  let Cnr : α := -0.125
  let r := a.state.angularVelocity.z
  let rHat := r * a.wingSpan / rateDivisor m a
  Cnbeta * beta + Cnda * aileron + Cndr * rudder + Cnr * rHat

end Aircraft

/-! ## flight_dynamics.hpp / flight_dynamics.cpp

`FlightDynamics` holds a pointer to the aircraft and a pointer to the
(stateless) atmosphere; its methods are functions of the aircraft. -/

/-- The `struct StateDerivative`. -/
structure StateDerivative (α : Type) where
  positionDot : Vector3 α
  velocityDot : Vector3 α
  angularVelocityDot : Vector3 α
  eulerDot : Vector3 α
deriving DecidableEq

namespace FlightDynamics

/-- The method `FlightDynamics::reset`. -/
def reset (aircraft : Aircraft α) : Aircraft α :=
  { aircraft with
    state :=
      { aircraft.state with
        position := ⟨0, 0, -1000⟩
        velocity := ⟨50, 0, 0⟩
        angularVelocity := ⟨0, 0, 0⟩
        roll := 0.0
        pitch := 0.0
        yaw := 0.0 } }

/-- The method `FlightDynamics::calculateForces`.  The aerodynamic angles and
`getCD` are read from the aircraft object, the remaining inputs from the
argument `state`. -/
def calculateForces (m : Libm α) (aircraft : Aircraft α) (state : AircraftState α) :
    Vector3 α :=
  let altitude := -state.position.z
  let density := (Atmosphere.getProperties m altitude).density
  let airspeed := state.velocity.magnitude m
  let airspeed := if airspeed < 0.1 then 0.1 else airspeed
  let q := 0.5 * density * airspeed * airspeed
  let alpha := aircraft.getAngleOfAttack m
  let beta := aircraft.getSideslip m
  let CL := aircraft.getCL alpha state.elevator
  let CD := aircraft.getCD alpha
  let CY := aircraft.getCY beta state.rudder
  let ca := m.cos alpha
  let sa := m.sin alpha
  let aeroForce : Vector3 α :=
    ⟨q * aircraft.wingArea * (-CD * ca + CL * sa),
     q * aircraft.wingArea * CY,
     q * aircraft.wingArea * (-CD * sa - CL * ca)⟩
  let thrust : Vector3 α := ⟨state.throttle * aircraft.maxThrust, 0, 0⟩
  let cr := m.cos state.roll
  let sr := m.sin state.roll
  let cp := m.cos state.pitch
  let sp := m.sin state.pitch
  let gravity : Vector3 α :=
    ⟨-aircraft.mass * 9.81 * sp,
     aircraft.mass * 9.81 * sr * cp,
     aircraft.mass * 9.81 * cr * cp⟩
  aeroForce + thrust + gravity

/-- The method `FlightDynamics::calculateMoments`. -/
def calculateMoments (m : Libm α) (aircraft : Aircraft α) (state : AircraftState α) :
    Vector3 α :=
  let altitude := -state.position.z
  let density := (Atmosphere.getProperties m altitude).density
  let airspeed := state.velocity.magnitude m
  let airspeed := if airspeed < 0.1 then 0.1 else airspeed
  let q := 0.5 * density * airspeed * airspeed
  let alpha := aircraft.getAngleOfAttack m
  let beta := aircraft.getSideslip m
  let Cl := aircraft.getCl m beta state.aileron state.rudder
  let Cm := aircraft.getCm m alpha state.elevator
  let Cn := aircraft.getCn m beta state.aileron state.rudder
  ⟨q * aircraft.wingArea * aircraft.wingSpan * Cl,
   q * aircraft.wingArea * aircraft.chord * Cm,
   q * aircraft.wingArea * aircraft.wingSpan * Cn⟩

/-- The method `FlightDynamics::computeDerivative`.  It returns the derivative
together with the aircraft object as the call leaves it.  (When the argument
is a reference to the aircraft's own state, as in the first stage of `update`,
the overwrite is a self-assignment and the value semantics below is the
same.) -/
def computeDerivative (m : Libm α) (aircraft : Aircraft α) (state : AircraftState α) :
    StateDerivative α × Aircraft α :=
  -- Store current state temporarily
  let originalState := aircraft.state
  let aircraft := { aircraft with state := state }
  -- Position derivative
  let cr := m.cos state.roll
  let sr := m.sin state.roll
  let cp := m.cos state.pitch
  let sp := m.sin state.pitch
  let cy := m.cos state.yaw
  let sy := m.sin state.yaw
  let positionDot : Vector3 α :=
    ⟨cy * cp * state.velocity.x +
       (cy * sp * sr - sy * cr) * state.velocity.y +
       (cy * sp * cr + sy * sr) * state.velocity.z,
     sy * cp * state.velocity.x +
       (sy * sp * sr + cy * cr) * state.velocity.y +
       (sy * sp * cr - cy * sr) * state.velocity.z,
     -sp * state.velocity.x +
       cp * sr * state.velocity.y +
       cp * cr * state.velocity.z⟩
  -- Forces
  let forces := calculateForces m aircraft state
  -- Velocity derivative
  let p := state.angularVelocity.x
  let q := state.angularVelocity.y
  let r := state.angularVelocity.z
  let velocityDot := forces / aircraft.mass - state.angularVelocity.cross state.velocity
  -- Moments
  let moments := calculateMoments m aircraft state
  -- Angular velocity derivative
  let Ixx := aircraft.Ixx
  let Iyy := aircraft.Iyy
  let Izz := aircraft.Izz
  let angularVelocityDot : Vector3 α :=
    ⟨(moments.x - (Izz - Iyy) * q * r) / Ixx,
     (moments.y - (Ixx - Izz) * p * r) / Iyy,
     (moments.z - (Iyy - Ixx) * p * q) / Izz⟩
  -- Euler angle derivatives
  let eulerDot : Vector3 α :=
    ⟨p + sr * m.tan state.pitch * q + cr * m.tan state.pitch * r,
     cr * q - sr * r,
     (sr / cp) * q + (cr / cp) * r⟩
  -- Restore original state
  let aircraft := { aircraft with state := originalState }
  ({ positionDot := positionDot, velocityDot := velocityDot,
     angularVelocityDot := angularVelocityDot, eulerDot := eulerDot }, aircraft)

/-- The method `FlightDynamics::addScaledDerivative`. -/
def addScaledDerivative (state : AircraftState α) (deriv : StateDerivative α) (scale : α) :
    AircraftState α :=
  { state with
    position := state.position + deriv.positionDot * scale
    velocity := state.velocity + deriv.velocityDot * scale
    angularVelocity := state.angularVelocity + deriv.angularVelocityDot * scale
    roll := state.roll + deriv.eulerDot.x * scale
    pitch := state.pitch + deriv.eulerDot.y * scale
    yaw := state.yaw + deriv.eulerDot.z * scale }

/-- The values computed by lines 11 to 20 of `update`: the four stage
derivatives, the three hypothetical stage states, and the aircraft object left
by the fourth call of `computeDerivative`.  Each stage state is built from
`aircraft->getState()` as it is when the stage is reached. -/
structure Stages (α : Type) where
  k1 : StateDerivative α
  k2 : StateDerivative α
  k3 : StateDerivative α
  k4 : StateDerivative α
  state2 : AircraftState α
  state3 : AircraftState α
  state4 : AircraftState α
  aircraft : Aircraft α

/-- Lines 11 to 20 of `FlightDynamics::update`. -/
def stages (m : Libm α) (aircraft : Aircraft α) (dt : α) : Stages α :=
  let r1 := computeDerivative m aircraft aircraft.state
  let state2 := addScaledDerivative r1.2.state r1.1 (dt * 0.5)
  let r2 := computeDerivative m r1.2 state2
  let state3 := addScaledDerivative r2.2.state r2.1 (dt * 0.5)
  let r3 := computeDerivative m r2.2 state3
  let state4 := addScaledDerivative r3.2.state r3.1 dt
  let r4 := computeDerivative m r3.2 state4
  { k1 := r1.1, k2 := r2.1, k3 := r3.1, k4 := r4.1,
    state2 := state2, state3 := state3, state4 := state4, aircraft := r4.2 }

/-- Lines 9 to 30 of `FlightDynamics::update`: the RK4 combination, before the
yaw is wrapped and the ground is handled. -/
def integrate (m : Libm α) (aircraft : Aircraft α) (dt : α) : Aircraft α :=
  let t := stages m aircraft dt
  let state := t.aircraft.state
  let eulerDot : Vector3 α :=
    (t.k1.eulerDot + t.k2.eulerDot * (2.0 : α) + t.k3.eulerDot * (2.0 : α) + t.k4.eulerDot)
      * (dt / 6.0)
  { t.aircraft with
    state :=
      { state with
        position := state.position +
          (t.k1.positionDot + t.k2.positionDot * (2.0 : α) + t.k3.positionDot * (2.0 : α)
            + t.k4.positionDot) * (dt / 6.0)
        velocity := state.velocity +
          (t.k1.velocityDot + t.k2.velocityDot * (2.0 : α) + t.k3.velocityDot * (2.0 : α)
            + t.k4.velocityDot) * (dt / 6.0)
        angularVelocity := state.angularVelocity +
          (t.k1.angularVelocityDot + t.k2.angularVelocityDot * (2.0 : α)
            + t.k3.angularVelocityDot * (2.0 : α) + t.k4.angularVelocityDot) * (dt / 6.0)
        roll := state.roll + eulerDot.x
        pitch := state.pitch + eulerDot.y
        yaw := state.yaw + eulerDot.z } }

/-- The loop `while (state.yaw > M_PI) state.yaw -= 2.0 * M_PI;`, in exact
arithmetic, where every pass lowers the yaw by `2.0 * M_PI` and the loop is
left after about `yaw / (2.0 * M_PI)` passes (`LoopRuns` counts them). -/
def wrapAbove [FloorRing α] (yaw : α) : α :=
  if h : yaw > M_PI then wrapAbove (yaw - 2.0 * M_PI) else yaw
termination_by (Int.ceil ((yaw - M_PI) / (2.0 * M_PI))).toNat
decreasing_by
  have hpi : (0 : α) < 2.0 * M_PI := by unfold M_PI; norm_num
  have hx : 0 < (yaw - M_PI) / (2.0 * M_PI) := div_pos (sub_pos.mpr h) hpi
  have hc : 0 < Int.ceil ((yaw - M_PI) / (2.0 * M_PI)) := Int.ceil_pos.mpr hx
  have he : (yaw - 2.0 * M_PI - M_PI) / (2.0 * M_PI) = (yaw - M_PI) / (2.0 * M_PI) - 1 := by
    field_simp
    ring
  rw [he, Int.ceil_sub_one]
  omega

/-- The loop `while (state.yaw < -M_PI) state.yaw += 2.0 * M_PI;`, in exact
arithmetic, where every pass raises the yaw by `2.0 * M_PI` and the loop is
left after about `-yaw / (2.0 * M_PI)` passes (`LoopRuns` counts them). -/
def wrapBelow [FloorRing α] (yaw : α) : α :=
  if h : yaw < -M_PI then wrapBelow (yaw + 2.0 * M_PI) else yaw
termination_by (Int.ceil ((-M_PI - yaw) / (2.0 * M_PI))).toNat
decreasing_by
  have hpi : (0 : α) < 2.0 * M_PI := by unfold M_PI; norm_num
  have hx : 0 < (-M_PI - yaw) / (2.0 * M_PI) := div_pos (sub_pos.mpr h) hpi
  have hc : 0 < Int.ceil ((-M_PI - yaw) / (2.0 * M_PI)) := Int.ceil_pos.mpr hx
  have he : (-M_PI - (yaw + 2.0 * M_PI)) / (2.0 * M_PI)
      = (-M_PI - yaw) / (2.0 * M_PI) - 1 := by
    field_simp
    ring
  rw [he, Int.ceil_sub_one]
  omega

/-- Lines 33 and 34 of `FlightDynamics::update`: the two yaw loops in sequence. -/
def wrapYaw [FloorRing α] (state : AircraftState α) : AircraftState α :=
  { state with yaw := wrapBelow (wrapAbove state.yaw) }

/-- Lines 37 to 41 of `FlightDynamics::update`: the ground collision. -/
def groundCollision (state : AircraftState α) : AircraftState α :=
  if state.position.z > 0.0 then
    { state with
      position := { state.position with z := 0.0 }
      velocity := ⟨0, 0, 0⟩
      angularVelocity := ⟨0, 0, 0⟩ }
  else state

/-- The method `FlightDynamics::update`. -/
def update [FloorRing α] (m : Libm α) (aircraft : Aircraft α) (dt : α) : Aircraft α :=
  let aircraft := integrate m aircraft dt
  { aircraft with state := groundCollision (wrapYaw aircraft.state) }

/-- The aircraft states reachable from the constructor's initial state by
calls of `update` (with any time step) and `reset`. -/
inductive Reachable [FloorRing α] (m : Libm α) : Aircraft α → Prop
  | ctor : Reachable m Aircraft.ctor
  | update (a : Aircraft α) (dt : α) : Reachable m a → Reachable m (update m a dt)
  | reset (a : Aircraft α) : Reachable m a → Reachable m (reset a)

/-- None of the four derivative evaluations of `update` divides by zero: the
divisor `2.0 * getAirspeed()` is not zero at the stored state nor at any of
the three hypothetical stage states. -/
def StagesDefined (m : Libm α) (aircraft : Aircraft α) (dt : α) : Prop :=
  Aircraft.rateDivisor m aircraft ≠ 0 ∧
  Aircraft.rateDivisor m { aircraft with state := (stages m aircraft dt).state2 } ≠ 0 ∧
  Aircraft.rateDivisor m { aircraft with state := (stages m aircraft dt).state3 } ≠ 0 ∧
  Aircraft.rateDivisor m { aircraft with state := (stages m aircraft dt).state4 } ≠ 0

instance instDecidableStagesDefined (m : Libm α) (aircraft : Aircraft α) (dt : α) :
    Decidable (StagesDefined m aircraft dt) := by
  unfold StagesDefined
  infer_instance

end FlightDynamics

/-- The four control fields of two states coincide. -/
def sameControls (s t : AircraftState α) : Prop :=
  s.elevator = t.elevator ∧ s.aileron = t.aileron ∧ s.rudder = t.rudder ∧
    s.throttle = t.throttle

instance instDecidableSameControls (s t : AircraftState α) : Decidable (sameControls s t) := by
  unfold sameControls
  infer_instance

/-! ## The RK4 step in the words of the specification

These definitions follow the description of the integrator, not the code;
they are compared with `FlightDynamics.integrate`. -/

namespace Spec

/-- The hypothetical state `s + k·h`: position, velocity, angular velocity and
the three Euler angles of `s`, each increased by the matching component of the
derivative `k` scaled by `h`. -/
def plus (s : AircraftState α) (k : StateDerivative α) (h : α) : AircraftState α :=
  { s with
    position := ⟨s.position.x + k.positionDot.x * h, s.position.y + k.positionDot.y * h,
      s.position.z + k.positionDot.z * h⟩
    velocity := ⟨s.velocity.x + k.velocityDot.x * h, s.velocity.y + k.velocityDot.y * h,
      s.velocity.z + k.velocityDot.z * h⟩
    angularVelocity := ⟨s.angularVelocity.x + k.angularVelocityDot.x * h,
      s.angularVelocity.y + k.angularVelocityDot.y * h,
      s.angularVelocity.z + k.angularVelocityDot.z * h⟩
    roll := s.roll + k.eulerDot.x * h
    pitch := s.pitch + k.eulerDot.y * h
    yaw := s.yaw + k.eulerDot.z * h }

/-- The derivative function `D`: `computeDerivative` called on the aircraft. -/
def D (m : Libm α) (a : Aircraft α) (s : AircraftState α) : StateDerivative α :=
  (FlightDynamics.computeDerivative m a s).1

/-- The slope `k1 = D(s)`, with `s` the state stored in the aircraft. -/
def k1 (m : Libm α) (a : Aircraft α) : StateDerivative α :=
  D m a a.state

/-- The slope `k2 = D(s + k1·dt/2)`. -/
def k2 (m : Libm α) (a : Aircraft α) (dt : α) : StateDerivative α :=
  D m a (plus a.state (k1 m a) (dt / 2))

/-- The slope `k3 = D(s + k2·dt/2)`. -/
def k3 (m : Libm α) (a : Aircraft α) (dt : α) : StateDerivative α :=
  D m a (plus a.state (k2 m a dt) (dt / 2))

/-- The slope `k4 = D(s + k3·dt)`. -/
def k4 (m : Libm α) (a : Aircraft α) (dt : α) : StateDerivative α :=
  D m a (plus a.state (k3 m a dt) dt)

/-- The weighted sum `s + (dt/6)·(x1 + 2·x2 + 2·x3 + x4)` for one scalar
component. -/
def combine (s x1 x2 x3 x4 dt : α) : α :=
  s + (dt / 6) * (x1 + 2 * x2 + 2 * x3 + x4)

/-- The weighted sum applied to the three components of a vector. -/
def combine3 (s x1 x2 x3 x4 : Vector3 α) (dt : α) : Vector3 α :=
  ⟨combine s.x x1.x x2.x x3.x x4.x dt, combine s.y x1.y x2.y x3.y x4.y dt,
   combine s.z x1.z x2.z x3.z x4.z dt⟩

/-- The aerodynamic force `qS·(-CD·cos a + CL·sin a, CY, -CD·sin a - CL·cos a)`
of the velocity-derivative description. -/
def aero (m : Libm α) (qS CL CD CY a : α) : Vector3 α :=
  ⟨qS * (-CD * m.cos a + CL * m.sin a), qS * CY, qS * (-CD * m.sin a - CL * m.cos a)⟩

/-- The thrust `(throttle·2000, 0, 0)` of the velocity-derivative description. -/
def thrust (throttle : α) : Vector3 α :=
  ⟨throttle * 2000, 0, 0⟩

/-- The weight `mass·9.81·(-sin pitch, sin roll·cos pitch, cos roll·cos pitch)`
of the velocity-derivative description, for a given mass. -/
def gravity (m : Libm α) (mass roll pitch : α) : Vector3 α :=
  ⟨mass * 9.81 * -m.sin pitch, mass * 9.81 * (m.sin roll * m.cos pitch),
   mass * 9.81 * (m.cos roll * m.cos pitch)⟩

end Spec

/-- The local `q` of `calculateForces` and `calculateMoments` (lines 55 to 62
and 100 to 107): the dynamic pressure at the density of the state's altitude
and at the state's airspeed raised to at least `0.1`. -/
def FlightDynamics.dynamicPressure (m : Libm α) (state : AircraftState α) : α :=
  let altitude := -state.position.z
  let density := (Atmosphere.getProperties m altitude).density
  let airspeed := state.velocity.magnitude m
  let airspeed := if airspeed < 0.1 then 0.1 else airspeed
  0.5 * density * airspeed * airspeed

/-! ## input_handler.hpp / input_handler.cpp

The window is seen through `glfwGetKey` only: it is a function telling, for
each key the handler asks about, whether the key is pressed. -/

/-- The keys `InputHandler::update` asks about (`GLFW_KEY_P`, `GLFW_KEY_R`, ...). -/
inductive Key where
  | P | R | W | S | A | D | Q | E | Z | X
  | SPACE | UP | DOWN | LEFT | RIGHT | PAGE_UP | PAGE_DOWN
deriving DecidableEq, Repr

/-- The data members of `class InputHandler`. -/
structure InputHandler (α : Type) where
  paused : Bool
  resetRequested : Bool
  elevatorInput : α
  aileronInput : α
  rudderInput : α
  throttleInput : α
  keyStates : Key → Bool

namespace InputHandler

def CONTROL_RATE : α := 2.0
def THROTTLE_RATE : α := 0.5

/-- The constructor `InputHandler::InputHandler()`. -/
def ctor : InputHandler α :=
  { paused := false
    resetRequested := false
    elevatorInput := 0.0
    aileronInput := 0.0
    rudderInput := 0.0
    throttleInput := 0.5
    keyStates := fun _ => false }

/-- The method `InputHandler::isPaused`. -/
def isPaused (h : InputHandler α) : Bool := h.paused

/-- The method `InputHandler::togglePause`. -/
def togglePause (h : InputHandler α) : InputHandler α :=
  { h with paused := !h.paused }

/-- The method `InputHandler::shouldReset`. -/
def shouldReset (h : InputHandler α) : Bool := h.resetRequested

/-- The method `InputHandler::clearReset`. -/
def clearReset (h : InputHandler α) : InputHandler α :=
  { h with resetRequested := false }

/-- The lambda `applyDeadzone` of `InputHandler::update`. -/
def applyDeadzone (value : α) : α :=
  let value := if |value| < 0.01 then 0.0 else value
  let value := max (-1.0) (min 1.0 value)
  -- Gradual return to center
  value * 0.98

/-- Lines 14 to 24 of `InputHandler::update`: the pause toggle and the reset
request, each on a fresh key press. -/
def pollToggles (h : InputHandler α) (window : Key → Bool) : InputHandler α :=
  -- Check for pause toggle
  let h := if window Key.P && !h.keyStates Key.P then togglePause h else h
  let h := { h with keyStates := Function.update h.keyStates Key.P (window Key.P) }
  -- Check for reset
  let h := if window Key.R && !h.keyStates Key.R then { h with resetRequested := true } else h
  { h with keyStates := Function.update h.keyStates Key.R (window Key.R) }

/-- The method `InputHandler::update`: the handler and the aircraft it leaves
behind. -/
def update (h : InputHandler α) (window : Key → Bool) (aircraft : Aircraft α) (dt : α) :
    InputHandler α × Aircraft α :=
  let h := pollToggles h window
  if h.paused then (h, aircraft)
  else
    let elevatorInput := h.elevatorInput
    let aileronInput := h.aileronInput
    let rudderInput := h.rudderInput
    let throttleInput := h.throttleInput
    -- Elevator control
    let elevatorInput :=
      if window Key.W || window Key.UP then elevatorInput + CONTROL_RATE * dt else elevatorInput
    let elevatorInput :=
      if window Key.S || window Key.DOWN then elevatorInput - CONTROL_RATE * dt
      else elevatorInput
    -- Aileron control
    let aileronInput :=
      if window Key.A || window Key.LEFT then aileronInput - CONTROL_RATE * dt else aileronInput
    let aileronInput :=
      if window Key.D || window Key.RIGHT then aileronInput + CONTROL_RATE * dt
      else aileronInput
    -- Rudder control
    let rudderInput := if window Key.Q then rudderInput - CONTROL_RATE * dt else rudderInput
    let rudderInput := if window Key.E then rudderInput + CONTROL_RATE * dt else rudderInput
    -- Throttle control
    let throttleInput :=
      if window Key.Z || window Key.PAGE_UP then throttleInput + THROTTLE_RATE * dt
      else throttleInput
    let throttleInput :=
      if window Key.X || window Key.PAGE_DOWN then throttleInput - THROTTLE_RATE * dt
      else throttleInput
    -- Center controls
    let elevatorInput := if window Key.SPACE then elevatorInput * 0.95 else elevatorInput
    let aileronInput := if window Key.SPACE then aileronInput * 0.95 else aileronInput
    let rudderInput := if window Key.SPACE then rudderInput * 0.95 else rudderInput
    -- Apply deadzone and return to center when no input
    let elevatorInput := applyDeadzone elevatorInput
    let aileronInput := applyDeadzone aileronInput
    let rudderInput := applyDeadzone rudderInput
    -- Clamp throttle
    let throttleInput := max 0.0 (min 1.0 throttleInput)
    -- Apply to aircraft
    ({ h with
       elevatorInput := elevatorInput
       aileronInput := aileronInput
       rudderInput := rudderInput
       throttleInput := throttleInput },
     { aircraft with
       state :=
         { aircraft.state with
           elevator := elevatorInput
           aileron := aileronInput
           rudder := rudderInput
           throttle := throttleInput } })

end InputHandler

/-- The aircraft built by the constructor, with its stored state replaced by
`s`. -/
def Aircraft.holding (s : AircraftState α) : Aircraft α :=
  { (Aircraft.ctor : Aircraft α) with state := s }

/-- The control fields of a state are in range: elevator, aileron and rudder in
`[-1, 1]`, throttle in `[0, 1]`. -/
def controlsInRange (s : AircraftState α) : Prop :=
  (-1 ≤ s.elevator ∧ s.elevator ≤ 1) ∧ (-1 ≤ s.aileron ∧ s.aileron ≤ 1) ∧
    (-1 ≤ s.rudder ∧ s.rudder ≤ 1) ∧ (0 ≤ s.throttle ∧ s.throttle ≤ 1)

instance instDecidableControlsInRange (s : AircraftState α) : Decidable (controlsInRange s) := by
  unfold controlsInRange
  infer_instance

/-- The three control surfaces of a state stay within `0.98` of the centre. -/
def deflectionsBelowFull (s : AircraftState α) : Prop :=
  |s.elevator| ≤ 0.98 ∧ |s.aileron| ≤ 0.98 ∧ |s.rudder| ≤ 0.98

instance instDecidableDeflectionsBelowFull (s : AircraftState α) :
    Decidable (deflectionsBelowFull s) := by
  unfold deflectionsBelowFull
  infer_instance

/-- Symmetric flight: no lateral velocity, no roll rate, no yaw rate, wings
level, aileron and rudder centred. -/
def Symmetric (s : AircraftState α) : Prop :=
  s.velocity.y = 0 ∧ s.angularVelocity.x = 0 ∧ s.angularVelocity.z = 0 ∧ s.roll = 0 ∧
    s.aileron = 0 ∧ s.rudder = 0

instance instDecidableSymmetric (s : AircraftState α) : Decidable (Symmetric s) := by
  unfold Symmetric
  infer_instance

/-- The sum of the squares of the three components of a vector. -/
def Vector3.normSq (v : Vector3 α) : α :=
  v.x ^ 2 + v.y ^ 2 + v.z ^ 2

/-- The time derivative of the rotational kinetic energy
`1/2·(Ixx·p² + Iyy·q² + Izz·r²)` along a state derivative:
`Ixx·p·pDot + Iyy·q·qDot + Izz·r·rDot`. -/
def Spec.kineticEnergyRate (a : Aircraft α) (s : AircraftState α) (k : StateDerivative α) : α :=
  a.Ixx * s.angularVelocity.x * k.angularVelocityDot.x
    + a.Iyy * s.angularVelocity.y * k.angularVelocityDot.y
    + a.Izz * s.angularVelocity.z * k.angularVelocityDot.z

/-- The loop `while (guard x) x = step x;` started at `y` leaves the loop after
exactly `n` iterations with the value `out`: the guard holds before each of the
first `n` iterations and fails after the `n`-th. -/
def LoopRuns (guard : α → Prop) (step : α → α) (y : α) (n : ℕ) (out : α) : Prop :=
  (∀ i : ℕ, i < n → guard (step^[i] y)) ∧ ¬ guard (step^[n] y) ∧ out = step^[n] y

instance instDecidableLoopRuns (guard : α → Prop) [DecidablePred guard] (step : α → α) (y : α)
    (n : ℕ) (out : α) : Decidable (LoopRuns guard step y n out) := by
  unfold LoopRuns
  infer_instance

/-- The airspeed `|s.velocity|` of a state. -/
def Spec.airspeed (m : Libm α) (s : AircraftState α) : α :=
  m.sqrt (s.velocity.x * s.velocity.x + s.velocity.y * s.velocity.y
    + s.velocity.z * s.velocity.z)

/-- The dynamic pressure `1/2·rho·V²` at a given speed `V`, with `rho` the
density at the altitude `-s.position.z` of the state. -/
def Spec.dynamicPressureAt (m : Libm α) (s : AircraftState α) (V : α) : α :=
  1 / 2 * (Atmosphere.getProperties m (-s.position.z)).density * V ^ 2

/-- The angle of attack of a state: `atan2(w, u)` when `u > 0.1`, else zero. -/
def Spec.alpha (m : Libm α) (s : AircraftState α) : α :=
  if s.velocity.x > 0.1 then m.atan2 s.velocity.z s.velocity.x else 0

/-- The sideslip of a state: `asin(v/V)` when the airspeed `V` exceeds `0.1`,
else zero. -/
def Spec.beta (m : Libm α) (s : AircraftState α) : α :=
  if Spec.airspeed m s > 0.1 then m.asin (s.velocity.y / Spec.airspeed m s) else 0

/-- The velocity derivative `F/m - omega × v` written out in components, for
a given dynamic pressure `q`: `m = 1043`, `F = aero + thrust + gravity`,
`aero = q·S·(-CD·cos a + CL·sin a, CY, -CD·sin a - CL·cos a)` with `S = 16.2`,
`thrust = (throttle·2000, 0, 0)`,
`gravity = m·9.81·(-sin pitch, sin roll·cos pitch, cos roll·cos pitch)`, and
`omega × v = (q·w - r·v, r·u - p·w, p·v - q·u)` for `omega = (p, q, r)`,
`v = (u, v, w)`; the coefficients are `CL = 0.28 + 4.58·a + 0.36·elevator`,
`CD = 0.027 + 0.045·CL²`, `CY = -0.393·beta + 0.187·rudder`. -/
def Spec.velocityDot (m : Libm α) (s : AircraftState α) (q : α) : Vector3 α :=
  let a := Spec.alpha m s
  let CL := 0.28 + 4.58 * a + 0.36 * s.elevator
  let CD := 0.027 + 0.045 * CL ^ 2
  let CY := -0.393 * Spec.beta m s + 0.187 * s.rudder
  let qS := q * 16.2
  let Fx := qS * (-CD * m.cos a + CL * m.sin a) + s.throttle * 2000
    + 1043 * 9.81 * (-m.sin s.pitch)
  let Fy := qS * CY + 0 + 1043 * 9.81 * (m.sin s.roll * m.cos s.pitch)
  let Fz := qS * (-CD * m.sin a - CL * m.cos a) + 0
    + 1043 * 9.81 * (m.cos s.roll * m.cos s.pitch)
  ⟨Fx / 1043 - (s.angularVelocity.y * s.velocity.z - s.angularVelocity.z * s.velocity.y),
   Fy / 1043 - (s.angularVelocity.z * s.velocity.x - s.angularVelocity.x * s.velocity.z),
   Fz / 1043 - (s.angularVelocity.x * s.velocity.y - s.angularVelocity.y * s.velocity.x)⟩

/-- The pairs of input handler and aircraft reachable from the two
constructors by the calls the main loop makes, in any order and with any keys
and time steps: `InputHandler::update`, `FlightDynamics::reset` (with
`clearReset`) and `FlightDynamics::update`. -/
inductive SimReachable [FloorRing α] (m : Libm α) : InputHandler α × Aircraft α → Prop
  | ctor : SimReachable m (InputHandler.ctor, Aircraft.ctor)
  | input (h : InputHandler α) (a : Aircraft α) (window : Key → Bool) (dt : α) :
      SimReachable m (h, a) → SimReachable m (InputHandler.update h window a dt)
  | reset (h : InputHandler α) (a : Aircraft α) :
      SimReachable m (h, a) → SimReachable m (h.clearReset, FlightDynamics.reset a)
  | step (h : InputHandler α) (a : Aircraft α) (dt : α) :
      SimReachable m (h, a) → SimReachable m (h, FlightDynamics.update m a dt)

end Model

/-! ## A concrete instance for evaluation -/

/-- A coarse rational instance of `Libm` (integer square root, truncated
series).  It serves only to evaluate the model at concrete inputs; no theorem
depends on its accuracy. -/
def sampleLibm : Libm ℚ where
  sqrt x := (Nat.sqrt (x.num.toNat * x.den) : ℚ) / x.den
  sin x := x - x ^ 3 / 6
  cos x := 1 - x ^ 2 / 2
  tan x := x + x ^ 3 / 3
  atan2 y x := if x = 0 then 0 else y / x
  asin x := x + x ^ 3 / 6
  pow x y := 1 + y * (x - 1)
  exp x := 1 + x + x ^ 2 / 2

/-- A second rational instance of `Libm`, built from rational functions that
keep the sign and order laws of the real functions: the square root is positive
on positive arguments, `sin² + cos² = 1`, powers of positive bases are
positive, and `1 + x ≤ exp x` with `exp x ≤ 1` for `x ≤ 0`.  It serves to
evaluate the model where a theorem assumes such laws of `m`. -/
def rationalLibm : Libm ℚ where
  sqrt x := if x ≤ 0 then 0 else (1 + x) / 2
  sin x := x / (1 + x ^ 2 / 4)
  cos x := (1 - x ^ 2 / 4) / (1 + x ^ 2 / 4)
  tan x := x / (1 - x ^ 2 / 4)
  atan2 y x := if x = 0 then 0 else y / x
  asin x := x
  pow x y := if x ≤ 0 then 0 else x ^ Int.floor y
  exp x := if x ≤ 0 then 1 / (1 - x) else 1 + x

/-- An aircraft standing on the ground line with forward speed: the
constructor's aircraft moved to `position.z = 0`. -/
def onGroundLine : Aircraft ℚ :=
  { (Aircraft.ctor : Aircraft ℚ) with
    state := { (Aircraft.ctor : Aircraft ℚ).state with position := ⟨0, 0, 0⟩ } }

/-- The constructor's aircraft placed five metres below the ground. -/
def belowGround : Aircraft ℚ :=
  { (Aircraft.ctor : Aircraft ℚ) with
    state := { (Aircraft.ctor : Aircraft ℚ).state with position := ⟨0, 0, 5⟩ } }

/-- A window in which only the key `W` is pressed. -/
def pressW : Key → Bool
  | Key.W => true
  | _ => false

/-- A window in which only the key `P` is pressed. -/
def pressP : Key → Bool
  | Key.P => true
  | _ => false

/-- A state flying level at 50 m/s with elevator deflection `0.5`. -/
def cruiseState : AircraftState ℚ :=
  { (Aircraft.ctor : Aircraft ℚ).state with elevator := 0.5 }

/-- A state on the ground line creeping forward at 0.05 m/s with full right
aileron. -/
def slowState : AircraftState ℚ :=
  { (Aircraft.ctor : Aircraft ℚ).state with
    position := ⟨0, 0, 0⟩
    velocity := ⟨1 / 20, 0, 0⟩
    aileron := 1
    throttle := 0 }

/-- A state flying at 50 m/s while rolling, pitching and yawing at 1 rad/s
each, with the three control deflections that cancel the three moment
coefficients under `rationalLibm`. -/
def trimmedState : AircraftState ℚ :=
  { (Aircraft.ctor : Aircraft ℚ).state with
    angularVelocity := ⟨1, 1, 1⟩
    elevator := 40906 / 1403061
    aileron := 3205675 / 242742058
    rudder := -12826990 / 849597203 }

/-- The constructor's aircraft flying forward at 40 m/s while slipping sideways
at 30 m/s. -/
def slipping : Aircraft ℚ :=
  { (Aircraft.ctor : Aircraft ℚ) with
    state := { (Aircraft.ctor : Aircraft ℚ).state with velocity := ⟨40, 30, 0⟩ } }

/-- The aircraft as ground contact leaves it: at rest at `position.z = 0`. -/
def grounded : Aircraft ℚ :=
  { (Aircraft.ctor : Aircraft ℚ) with
    state :=
      { (Aircraft.ctor : Aircraft ℚ).state with
        position := ⟨0, 0, 0⟩
        velocity := ⟨0, 0, 0⟩
        angularVelocity := ⟨0, 0, 0⟩ } }


/-! ## Auxiliary lemmas -/

section Lemmas

variable {α : Type} [LinearOrderedField α]

open FlightDynamics

theorem M_PI_pos : (0 : α) < M_PI := by
  unfold M_PI
  norm_num

@[simp] theorem Vector3.add_x (a v : Vector3 α) : (a + v).x = a.x + v.x := rfl
@[simp] theorem Vector3.add_y (a v : Vector3 α) : (a + v).y = a.y + v.y := rfl
@[simp] theorem Vector3.add_z (a v : Vector3 α) : (a + v).z = a.z + v.z := rfl
@[simp] theorem Vector3.mul_x (a : Vector3 α) (s : α) : (a * s).x = a.x * s := rfl
@[simp] theorem Vector3.mul_y (a : Vector3 α) (s : α) : (a * s).y = a.y * s := rfl
@[simp] theorem Vector3.mul_z (a : Vector3 α) (s : α) : (a * s).z = a.z * s := rfl

/-- `computeDerivative` hands back the aircraft object it was given. -/
theorem computeDerivative_snd (m : Libm α) (a : Aircraft α) (s : AircraftState α) :
    (computeDerivative m a s).2 = a := rfl

/-- The derivative does not depend on the state stored in the aircraft. -/
theorem computeDerivative_fst_stored (m : Libm α) (a : Aircraft α) (s0 s : AircraftState α) :
    (computeDerivative m { a with state := s0 } s).1 = (computeDerivative m a s).1 := rfl

/-- After the four derivative evaluations the aircraft object is the one
`update` started from. -/
theorem stages_aircraft (m : Libm α) (a : Aircraft α) (dt : α) :
    (stages m a dt).aircraft = a := rfl

theorem integrate_position (m : Libm α) (a : Aircraft α) (dt : α) :
    (integrate m a dt).state.position = a.state.position +
      ((stages m a dt).k1.positionDot + (stages m a dt).k2.positionDot * (2.0 : α)
        + (stages m a dt).k3.positionDot * (2.0 : α) + (stages m a dt).k4.positionDot)
        * (dt / 6.0) := rfl

/-- In exact arithmetic a step of length zero integrates to the state it
started from: every increment is a number times zero.  (For the program this
needs the four derivatives to be finite.) -/
theorem integrate_zero (m : Libm α) (a : Aircraft α) : integrate m a 0 = a := by
  have hv : ∀ p d : Vector3 α, p + d * ((0 : α) / 6.0) = p := by
    intro p d
    ext <;> simp
  cases a with
  | mk state mass wingArea wingSpan chord Ixx Iyy Izz Ixz maxThrust =>
    cases state
    simp only [integrate, stages_aircraft, hv]
    simp

/-- The literal `0.0` is zero. -/
theorem lit_zero : (0.0 : α) = 0 := by norm_num

theorem groundCollision_z_le (s : AircraftState α) : (groundCollision s).position.z ≤ 0 := by
  unfold groundCollision
  rw [lit_zero]
  split
  · exact le_refl _
  · rename_i h
    exact not_lt.mp h

theorem groundCollision_of_pos (s : AircraftState α) (h : 0 < s.position.z) :
    groundCollision s =
      { s with
        position := { s.position with z := 0 }
        velocity := ⟨0, 0, 0⟩
        angularVelocity := ⟨0, 0, 0⟩ } := by
  unfold groundCollision
  rw [lit_zero, if_pos h]

theorem groundCollision_of_nonpos (s : AircraftState α) (h : s.position.z ≤ 0) :
    groundCollision s = s := by
  unfold groundCollision
  rw [lit_zero, if_neg (not_lt.mpr h)]

section Wrap

variable [FloorRing α]

theorem wrapAbove_of_le (y : α) (h : y ≤ M_PI) : wrapAbove y = y := by
  rw [wrapAbove, dif_neg (not_lt.mpr h)]

theorem wrapBelow_of_ge (y : α) (h : -M_PI ≤ y) : wrapBelow y = y := by
  rw [wrapBelow, dif_neg (not_lt.mpr h)]

theorem wrapYaw_position (s : AircraftState α) : (wrapYaw s).position = s.position := rfl
theorem wrapYaw_velocity (s : AircraftState α) : (wrapYaw s).velocity = s.velocity := rfl
theorem wrapYaw_angularVelocity (s : AircraftState α) :
    (wrapYaw s).angularVelocity = s.angularVelocity := rfl

theorem update_state (m : Libm α) (a : Aircraft α) (dt : α) :
    (update m a dt).state = groundCollision (wrapYaw (integrate m a dt).state) := rfl

end Wrap

end Lemmas

/-! ## Ground contact, yaw wrap and altitude (C1, C2, C3) -/

section GroundAndYaw

variable {α : Type} [LinearOrderedField α] [FloorRing α]

open FlightDynamics

/-- C1 (as amended): when the RK4-integrated down-position is at or below the
ground line, `update` leaves `position.z = 0`; when it is strictly positive the
velocity and the angular velocity are zeroed; when it is exactly zero they are
left as integrated. -/
theorem C1_ground_clamp (m : Libm α) (a : Aircraft α) (dt : α)
    (h : 0 ≤ (integrate m a dt).state.position.z) :
    (update m a dt).state.position.z = 0 ∧
    (0 < (integrate m a dt).state.position.z →
      (update m a dt).state.velocity = ⟨0, 0, 0⟩ ∧
      (update m a dt).state.angularVelocity = ⟨0, 0, 0⟩) ∧
    ((integrate m a dt).state.position.z = 0 →
      (update m a dt).state.velocity = (integrate m a dt).state.velocity ∧
      (update m a dt).state.angularVelocity = (integrate m a dt).state.angularVelocity) := by
  rw [update_state]
  rcases lt_or_eq_of_le h with hpos | hzero
  · have hw : 0 < (wrapYaw (integrate m a dt).state).position.z := by
      rw [wrapYaw_position]
      exact hpos
    rw [groundCollision_of_pos _ hw]
    refine ⟨rfl, fun _ => ⟨rfl, rfl⟩, fun h0 => ?_⟩
    exact absurd h0 (ne_of_gt hpos)
  · have hw : (wrapYaw (integrate m a dt).state).position.z ≤ 0 := by
      rw [wrapYaw_position, ← hzero]
    rw [groundCollision_of_nonpos _ hw]
    refine ⟨?_, fun h0 => ?_, fun _ => ⟨rfl, rfl⟩⟩
    · rw [wrapYaw_position]
      exact hzero.symm
    · exact absurd hzero (ne_of_lt h0)

/-- C1, witness: an aircraft five metres below the ground line, step of length
zero. -/
theorem C1_ground_clamp_witness :
    0 ≤ (integrate sampleLibm belowGround 0).state.position.z ∧
    (update sampleLibm belowGround 0).state.position.z = 0 ∧
    (update sampleLibm belowGround 0).state.velocity = ⟨0, 0, 0⟩ ∧
    (update sampleLibm belowGround 0).state.angularVelocity = ⟨0, 0, 0⟩ := by
  have hz : (integrate sampleLibm belowGround 0).state.position.z = 5 := by
    rw [integrate_zero]
    rfl
  have h0 : 0 ≤ (integrate sampleLibm belowGround 0).state.position.z := by
    rw [hz]
    norm_num
  have hp : 0 < (integrate sampleLibm belowGround 0).state.position.z := by
    rw [hz]
    norm_num
  have key := C1_ground_clamp sampleLibm belowGround 0 h0
  exact ⟨h0, key.1, (key.2.1 hp).1, (key.2.1 hp).2⟩

/-- C1, counterexample to the claim as stated: with integrated
`position.z = 0` exactly, `update` keeps the velocity `(50, 0, 0)`. -/
theorem C1_counterexample :
    (integrate sampleLibm onGroundLine 0).state.position.z ≥ 0 ∧
    ¬ ((update sampleLibm onGroundLine 0).state.position.z = 0 ∧
       (update sampleLibm onGroundLine 0).state.velocity = ⟨0, 0, 0⟩ ∧
       (update sampleLibm onGroundLine 0).state.angularVelocity = ⟨0, 0, 0⟩) := by
  have hi : integrate sampleLibm onGroundLine 0 = onGroundLine := integrate_zero _ _
  have hz : onGroundLine.state.position.z = 0 := rfl
  have hu : (update sampleLibm onGroundLine 0).state.velocity = ⟨50, 0, 0⟩ := by
    rw [update_state, hi, groundCollision_of_nonpos _ (by rw [wrapYaw_position, hz])]
    rfl
  refine ⟨by rw [hi, hz], fun hc => ?_⟩
  have hx := congrArg Vector3.x (hu.symm.trans hc.2.1)
  norm_num at hx

/-- C3, the program at a reachable state: one `update` of five seconds from
the constructor's state ends in ground contact, which leaves the aircraft at
`position.z = 0` with zero velocity and zero angular velocity.  The next
`update` starts its first derivative evaluation at this stored state, where
the divisor `2.0 * getAirspeed()` of `getCl`, `getCm` and `getCn` is zero and
each damping term is `0/0`. -/
theorem C3_rest_state_reachable :
    Reachable rationalLibm (update rationalLibm (Aircraft.ctor : Aircraft ℚ) 5) ∧
    (update rationalLibm (Aircraft.ctor : Aircraft ℚ) 5).state.position.z = 0 ∧
    (update rationalLibm (Aircraft.ctor : Aircraft ℚ) 5).state.velocity = ⟨0, 0, 0⟩ ∧
    (update rationalLibm (Aircraft.ctor : Aircraft ℚ) 5).state.angularVelocity = ⟨0, 0, 0⟩ ∧
    Aircraft.rateDivisor rationalLibm (update rationalLibm (Aircraft.ctor : Aircraft ℚ) 5) = 0 ∧
    (∀ dt : ℚ,
      (stages rationalLibm (update rationalLibm (Aircraft.ctor : Aircraft ℚ) 5) dt).k1 =
        (computeDerivative rationalLibm (update rationalLibm (Aircraft.ctor : Aircraft ℚ) 5)
          (update rationalLibm (Aircraft.ctor : Aircraft ℚ) 5).state).1) ∧
    ¬ StagesDefined rationalLibm (update rationalLibm (Aircraft.ctor : Aircraft ℚ) 5) (1 / 60) := by
  have hpos : 0 < (integrate rationalLibm (Aircraft.ctor : Aircraft ℚ) 5).state.position.z := by
    decide!
  have hw : 0 < (wrapYaw (integrate rationalLibm (Aircraft.ctor : Aircraft ℚ) 5).state).position.z := by
    rw [wrapYaw_position]
    exact hpos
  have hs : (update rationalLibm (Aircraft.ctor : Aircraft ℚ) 5).state =
      { wrapYaw (integrate rationalLibm (Aircraft.ctor : Aircraft ℚ) 5).state with
        position := { (wrapYaw (integrate rationalLibm (Aircraft.ctor : Aircraft ℚ) 5).state).position
          with z := 0 }
        velocity := ⟨0, 0, 0⟩
        angularVelocity := ⟨0, 0, 0⟩ } := by
    rw [update_state, groundCollision_of_pos _ hw]
  have hv : (update rationalLibm (Aircraft.ctor : Aircraft ℚ) 5).state.velocity = ⟨0, 0, 0⟩ := by
    rw [hs]
  have hd : Aircraft.rateDivisor rationalLibm
      (update rationalLibm (Aircraft.ctor : Aircraft ℚ) 5) = 0 := by
    unfold Aircraft.rateDivisor Aircraft.getAirspeed Vector3.magnitude
    rw [hv]
    show (2.0 : ℚ) * (if (0 * 0 + 0 * 0 + 0 * 0 : ℚ) ≤ 0 then 0
      else (1 + (0 * 0 + 0 * 0 + 0 * 0)) / 2) = 0
    norm_num
  refine ⟨Reachable.update _ _ Reachable.ctor, by rw [hs], hv, by rw [hs], hd, fun _ => rfl, ?_⟩
  intro hdef
  exact hdef.1 hd

end GroundAndYaw

/-! ## The RK4 step, controls and reset (C4, C5, C6, C7) -/

section Integrator

variable {α : Type} [LinearOrderedField α]

open FlightDynamics

/-- The code's stage state `addScaledDerivative state k h` is the state
`s + k·h` of the description. -/
theorem addScaledDerivative_eq_plus (s : AircraftState α) (k : StateDerivative α) (h : α) :
    addScaledDerivative s k h = Spec.plus s k h := rfl

theorem half_lit (dt : α) : dt * 0.5 = dt / 2 := by
  have h : (0.5 : α) = 1 / 2 := by norm_num
  rw [h]
  ring

theorem stages_state2 (m : Libm α) (a : Aircraft α) (dt : α) :
    (stages m a dt).state2 = Spec.plus a.state (Spec.k1 m a) (dt / 2) := by
  rw [← half_lit]
  rfl

theorem stages_k2 (m : Libm α) (a : Aircraft α) (dt : α) :
    (stages m a dt).k2 = Spec.k2 m a dt := by
  show (computeDerivative m a (stages m a dt).state2).1 = _
  rw [stages_state2]
  rfl

theorem stages_state3 (m : Libm α) (a : Aircraft α) (dt : α) :
    (stages m a dt).state3 = Spec.plus a.state (Spec.k2 m a dt) (dt / 2) := by
  rw [← half_lit, ← stages_k2]
  rfl

theorem stages_k3 (m : Libm α) (a : Aircraft α) (dt : α) :
    (stages m a dt).k3 = Spec.k3 m a dt := by
  show (computeDerivative m a (stages m a dt).state3).1 = _
  rw [stages_state3]
  rfl

theorem stages_state4 (m : Libm α) (a : Aircraft α) (dt : α) :
    (stages m a dt).state4 = Spec.plus a.state (Spec.k3 m a dt) dt := by
  rw [← stages_k3]
  rfl

theorem stages_k4 (m : Libm α) (a : Aircraft α) (dt : α) :
    (stages m a dt).k4 = Spec.k4 m a dt := by
  show (computeDerivative m a (stages m a dt).state4).1 = _
  rw [stages_state4]
  rfl

/-- The code's weighted vector update is the description's weighted sum. -/
theorem weighted_eq_combine3 (s x1 x2 x3 x4 : Vector3 α) (dt : α) :
    s + (x1 + x2 * (2.0 : α) + x3 * (2.0 : α) + x4) * (dt / 6.0) =
      Spec.combine3 s x1 x2 x3 x4 dt := by
  have h2 : (2.0 : α) = 2 := by norm_num
  have h6 : (6.0 : α) = 6 := by norm_num
  rw [h2, h6]
  ext <;> simp only [Spec.combine3, Spec.combine, Vector3.add_x, Vector3.add_y, Vector3.add_z,
    Vector3.mul_x, Vector3.mul_y, Vector3.mul_z] <;> ring

/-- C4: before the yaw is wrapped and the ground is handled, `update` has
computed `s + (dt/6)·(k1 + 2·k2 + 2·k3 + k4)` in position, velocity, angular
velocity and the three Euler angles, where `k1 = D(s)`, `k2 = D(s + k1·dt/2)`,
`k3 = D(s + k2·dt/2)`, `k4 = D(s + k3·dt)`; the three stage states of the code
are `s + k1·dt/2`, `s + k2·dt/2` and `s + k3·dt`, each formed from the original
state `s`. -/
theorem C4_rk4_reference (m : Libm α) (a : Aircraft α) (dt : α) :
    ((stages m a dt).state2 = Spec.plus a.state (Spec.k1 m a) (dt / 2) ∧
     (stages m a dt).state3 = Spec.plus a.state (Spec.k2 m a dt) (dt / 2) ∧
     (stages m a dt).state4 = Spec.plus a.state (Spec.k3 m a dt) dt) ∧
    (integrate m a dt).state.position =
      Spec.combine3 a.state.position (Spec.k1 m a).positionDot (Spec.k2 m a dt).positionDot
        (Spec.k3 m a dt).positionDot (Spec.k4 m a dt).positionDot dt ∧
    (integrate m a dt).state.velocity =
      Spec.combine3 a.state.velocity (Spec.k1 m a).velocityDot (Spec.k2 m a dt).velocityDot
        (Spec.k3 m a dt).velocityDot (Spec.k4 m a dt).velocityDot dt ∧
    (integrate m a dt).state.angularVelocity =
      Spec.combine3 a.state.angularVelocity (Spec.k1 m a).angularVelocityDot
        (Spec.k2 m a dt).angularVelocityDot (Spec.k3 m a dt).angularVelocityDot
        (Spec.k4 m a dt).angularVelocityDot dt ∧
    (integrate m a dt).state.roll =
      Spec.combine a.state.roll (Spec.k1 m a).eulerDot.x (Spec.k2 m a dt).eulerDot.x
        (Spec.k3 m a dt).eulerDot.x (Spec.k4 m a dt).eulerDot.x dt ∧
    (integrate m a dt).state.pitch =
      Spec.combine a.state.pitch (Spec.k1 m a).eulerDot.y (Spec.k2 m a dt).eulerDot.y
        (Spec.k3 m a dt).eulerDot.y (Spec.k4 m a dt).eulerDot.y dt ∧
    (integrate m a dt).state.yaw =
      Spec.combine a.state.yaw (Spec.k1 m a).eulerDot.z (Spec.k2 m a dt).eulerDot.z
        (Spec.k3 m a dt).eulerDot.z (Spec.k4 m a dt).eulerDot.z dt := by
  have hk1 : (stages m a dt).k1 = Spec.k1 m a := rfl
  have h2 : (2.0 : α) = 2 := by norm_num
  have h6 : (6.0 : α) = 6 := by norm_num
  refine ⟨⟨stages_state2 m a dt, stages_state3 m a dt, stages_state4 m a dt⟩, ?_, ?_, ?_, ?_, ?_, ?_⟩
  · rw [← weighted_eq_combine3, ← hk1, ← stages_k2, ← stages_k3, ← stages_k4]
    rfl
  · rw [← weighted_eq_combine3, ← hk1, ← stages_k2, ← stages_k3, ← stages_k4]
    rfl
  · rw [← weighted_eq_combine3, ← hk1, ← stages_k2, ← stages_k3, ← stages_k4]
    rfl
  · rw [← hk1, ← stages_k2, ← stages_k3, ← stages_k4]
    show a.state.roll + (((stages m a dt).k1.eulerDot + (stages m a dt).k2.eulerDot * (2.0 : α)
      + (stages m a dt).k3.eulerDot * (2.0 : α) + (stages m a dt).k4.eulerDot)
      * (dt / 6.0)).x = _
    simp only [Spec.combine, Vector3.add_x, Vector3.mul_x, h2, h6]
    ring
  · rw [← hk1, ← stages_k2, ← stages_k3, ← stages_k4]
    show a.state.pitch + (((stages m a dt).k1.eulerDot + (stages m a dt).k2.eulerDot * (2.0 : α)
      + (stages m a dt).k3.eulerDot * (2.0 : α) + (stages m a dt).k4.eulerDot)
      * (dt / 6.0)).y = _
    simp only [Spec.combine, Vector3.add_y, Vector3.mul_y, h2, h6]
    ring
  · rw [← hk1, ← stages_k2, ← stages_k3, ← stages_k4]
    show a.state.yaw + (((stages m a dt).k1.eulerDot + (stages m a dt).k2.eulerDot * (2.0 : α)
      + (stages m a dt).k3.eulerDot * (2.0 : α) + (stages m a dt).k4.eulerDot)
      * (dt / 6.0)).z = _
    simp only [Spec.combine, Vector3.add_z, Vector3.mul_z, h2, h6]
    ring

theorem groundCollision_sameControls (s : AircraftState α) :
    sameControls (groundCollision s) s := by
  unfold groundCollision
  split <;> exact ⟨rfl, rfl, rfl, rfl⟩

/-- C5: `update` leaves elevator, aileron, rudder and throttle as they were
before the call, whether or not the ground clamp fires; the three hypothetical
stage states carry the same four values, as does every state built by
`addScaledDerivative`. -/
theorem C5_controls_framed [FloorRing α] (m : Libm α) (a : Aircraft α) (dt : α) :
    sameControls (update m a dt).state a.state ∧
    (sameControls (stages m a dt).state2 a.state ∧
     sameControls (stages m a dt).state3 a.state ∧
     sameControls (stages m a dt).state4 a.state) ∧
    (∀ (s : AircraftState α) (k : StateDerivative α) (h : α),
      sameControls (addScaledDerivative s k h) s) := by
  refine ⟨?_, ⟨⟨rfl, rfl, rfl, rfl⟩, ⟨rfl, rfl, rfl, rfl⟩, ⟨rfl, rfl, rfl, rfl⟩⟩,
    fun _ _ _ => ⟨rfl, rfl, rfl, rfl⟩⟩
  rw [update_state]
  have h := groundCollision_sameControls (wrapYaw (integrate m a dt).state)
  exact h

/-- C6: `reset` leaves position `(0, 0, -1000)`, velocity `(50, 0, 0)`, zero
angular velocity, zero roll, pitch and yaw, and the four controls as they were
before the call. -/
theorem C6_reset_postcondition (a : Aircraft α) :
    (reset a).state.position = ⟨0, 0, -1000⟩ ∧
    (reset a).state.velocity = ⟨50, 0, 0⟩ ∧
    (reset a).state.angularVelocity = ⟨0, 0, 0⟩ ∧
    (reset a).state.roll = 0 ∧ (reset a).state.pitch = 0 ∧ (reset a).state.yaw = 0 ∧
    (reset a).state.elevator = a.state.elevator ∧
    (reset a).state.aileron = a.state.aileron ∧
    (reset a).state.rudder = a.state.rudder ∧
    (reset a).state.throttle = a.state.throttle :=
  ⟨rfl, rfl, rfl, lit_zero, lit_zero, lit_zero, rfl, rfl, rfl, rfl⟩

/-- C7: `reset` is idempotent, and the states left by `reset` from any two
prior aircraft agree on position, velocity, angular velocity and the three
Euler angles. -/
theorem C7_reset_idempotent (a a1 a2 : Aircraft α) :
    reset (reset a) = reset a ∧
    (reset a1).state.position = (reset a2).state.position ∧
    (reset a1).state.velocity = (reset a2).state.velocity ∧
    (reset a1).state.angularVelocity = (reset a2).state.angularVelocity ∧
    (reset a1).state.roll = (reset a2).state.roll ∧
    (reset a1).state.pitch = (reset a2).state.pitch ∧
    (reset a1).state.yaw = (reset a2).state.yaw :=
  ⟨rfl, rfl, rfl, rfl, rfl, rfl, rfl⟩

end Integrator

/-! ## The derivative function and the stored state (C8, C9, C10) -/

section Derivative

variable {α : Type} [LinearOrderedField α]

open FlightDynamics

/-- C8, the code at rest: with the velocity `(0, 0, 0)` that
ground contact leaves in the stored state, `getAirspeed` is `sqrt 0 = 0`, so
the airspeed used by `getCl`, `getCm` and `getCn` is below `0.1` and the
divisor `2.0 * getAirspeed()` is zero. -/
theorem C8_rate_divisor_zero_at_rest (m : Libm α) (a : Aircraft α)
    (hsqrt : m.sqrt 0 = 0) (hv : a.state.velocity = ⟨0, 0, 0⟩) :
    a.getAirspeed m = 0 ∧ ¬ (0.1 ≤ a.getAirspeed m) ∧ a.rateDivisor m = 0 := by
  have hA : a.getAirspeed m = 0 := by
    unfold Aircraft.getAirspeed Vector3.magnitude
    rw [hv]
    simp only [mul_zero, add_zero]
    exact hsqrt
  refine ⟨hA, ?_, ?_⟩
  · rw [hA]
    norm_num
  · unfold Aircraft.rateDivisor
    rw [hA, mul_zero]

/-- C8, witness: the aircraft at rest on the ground, as ground contact leaves
it. -/
theorem C8_rate_divisor_zero_at_rest_witness :
    sampleLibm.sqrt 0 = 0 ∧ grounded.state.velocity = ⟨0, 0, 0⟩ ∧
    grounded.getAirspeed sampleLibm = 0 ∧ ¬ ((0.1 : ℚ) ≤ grounded.getAirspeed sampleLibm) ∧
    grounded.rateDivisor sampleLibm = 0 := by
  have hs : sampleLibm.sqrt 0 = 0 := by
    simp [sampleLibm]
  exact ⟨hs, rfl, C8_rate_divisor_zero_at_rest sampleLibm grounded hs rfl⟩

/-- C9: the derivative returned by `computeDerivative` for a hypothetical state
`s` is the same whatever state the aircraft object stores (same physical
constants, any two stored states `s1`, `s2`).  The forces and moments inside
it are evaluated on the aircraft object holding `s`, whose angle of attack,
sideslip, damping rates and drag elevator are those of `s`. -/
theorem C9_derivative_pure (m : Libm α) (a : Aircraft α) (s1 s2 s : AircraftState α) :
    (computeDerivative m { a with state := s1 } s).1 =
      (computeDerivative m { a with state := s2 } s).1 ∧
    ((computeDerivative m { a with state := s1 } s).1.velocityDot =
        calculateForces m { a with state := s } s / a.mass
          - s.angularVelocity.cross s.velocity ∧
     (computeDerivative m { a with state := s1 } s).1.angularVelocityDot =
        ⟨((calculateMoments m { a with state := s } s).x
            - (a.Izz - a.Iyy) * s.angularVelocity.y * s.angularVelocity.z) / a.Ixx,
         ((calculateMoments m { a with state := s } s).y
            - (a.Ixx - a.Izz) * s.angularVelocity.x * s.angularVelocity.z) / a.Iyy,
         ((calculateMoments m { a with state := s } s).z
            - (a.Iyy - a.Ixx) * s.angularVelocity.x * s.angularVelocity.y) / a.Izz⟩) ∧
    (Aircraft.getAngleOfAttack m { a with state := s } =
        (if s.velocity.x > 0.1 then m.atan2 s.velocity.z s.velocity.x else 0.0) ∧
     Aircraft.getSideslip m { a with state := s } =
        (if s.velocity.magnitude m > 0.1 then m.asin (s.velocity.y / s.velocity.magnitude m)
          else 0.0) ∧
     (∀ alpha : α, Aircraft.getCD { a with state := s } alpha =
        0.027 + 0.045 * Aircraft.getCL a alpha s.elevator * Aircraft.getCL a alpha s.elevator) ∧
     (∀ beta aileron rudder : α, Aircraft.getCl m { a with state := s } beta aileron rudder =
        -0.074 * beta + 0.178 * aileron + 0.0147 * rudder
          + -0.484 * (s.angularVelocity.x * a.wingSpan / (2.0 * s.velocity.magnitude m))) ∧
     (∀ alpha elevator : α, Aircraft.getCm m { a with state := s } alpha elevator =
        0.04 + -0.613 * alpha + -1.122 * elevator
          + -12.4 * (s.angularVelocity.y * a.chord / (2.0 * s.velocity.magnitude m))) ∧
     (∀ beta aileron rudder : α, Aircraft.getCn m { a with state := s } beta aileron rudder =
        0.071 * beta + -0.0504 * aileron + -0.0805 * rudder
          + -0.125 * (s.angularVelocity.z * a.wingSpan / (2.0 * s.velocity.magnitude m)))) :=
  ⟨rfl, ⟨rfl, rfl⟩, rfl, rfl, fun _ => rfl, fun _ _ _ => rfl, fun _ _ => rfl,
    fun _ _ _ => rfl⟩

/-- C10: when `computeDerivative` returns, the aircraft object is the one it
was called on: the stored state equals the prior stored state in every field
(and the physical constants are untouched). -/
theorem C10_derivative_restores (m : Libm α) (a : Aircraft α) (s : AircraftState α) :
    (computeDerivative m a s).2.state = a.state ∧ (computeDerivative m a s).2 = a :=
  ⟨rfl, rfl⟩

end Derivative

/-! ## The atmosphere (C11, C12, C13, C14) -/

section AtmosphereFacts

variable {α : Type} [LinearOrderedField α]

open Atmosphere

theorem lit_11000 : (11000.0 : α) = 11000 := by norm_num

theorem lit_101325 : (101325.0 : α) = 101325 := by norm_num

/-- The troposphere branch of `getProperties`, for an altitude that needs no
clamping. -/
theorem getProperties_troposphere (m : Libm α) (h : α) (h0 : 0 ≤ h) (h1 : h ≤ 11000) :
    getProperties m h =
      { density := 101325 * m.pow ((288.15 - 0.0065 * h) / 288.15)
            (9.80665 / (0.0065 * 287.05)) / (287.05 * (288.15 - 0.0065 * h))
        pressure := 101325 * m.pow ((288.15 - 0.0065 * h) / 288.15)
            (9.80665 / (0.0065 * 287.05))
        temperature := 288.15 - 0.0065 * h
        speedOfSound := m.sqrt (1.4 * 287.05 * (288.15 - 0.0065 * h)) } := by
  have hn : ¬ h < 0 := not_lt.mpr h0
  simp only [getProperties, lit_zero, lit_11000, lit_101325, if_neg hn, if_pos h1,
    SEA_LEVEL_TEMPERATURE, TEMPERATURE_LAPSE_RATE, GRAVITY, GAS_CONSTANT, SEA_LEVEL_PRESSURE,
    GAMMA]

/-- The stratosphere branch of `getProperties`. -/
theorem getProperties_stratosphere (m : Libm α) (h : α) (h1 : 11000 < h) :
    getProperties m h =
      { density := 101325 * m.pow ((288.15 - 0.0065 * 11000) / 288.15)
            (9.80665 / (0.0065 * 287.05))
            * m.exp (-9.80665 * (h - 11000) / (287.05 * 216.65)) / (287.05 * 216.65)
        pressure := 101325 * m.pow ((288.15 - 0.0065 * 11000) / 288.15)
            (9.80665 / (0.0065 * 287.05))
            * m.exp (-9.80665 * (h - 11000) / (287.05 * 216.65))
        temperature := 216.65
        speedOfSound := m.sqrt (1.4 * 287.05 * 216.65) } := by
  have hn : ¬ h < 0 := not_lt.mpr (le_of_lt (lt_trans (by norm_num) h1))
  have hl : ¬ h ≤ 11000 := not_le.mpr h1
  simp only [getProperties, lit_zero, lit_11000, lit_101325, if_neg hn, if_neg hl,
    SEA_LEVEL_TEMPERATURE, TEMPERATURE_LAPSE_RATE, GRAVITY, GAS_CONSTANT, SEA_LEVEL_PRESSURE,
    GAMMA]

/-- A negative altitude is replaced by zero before anything is computed. -/
theorem getProperties_negative (m : Libm α) (h : α) (h0 : h < 0) :
    getProperties m h = getProperties m 0 := by
  have hz : ¬ (0 : α) < 0 := lt_irrefl _
  simp only [getProperties, lit_zero, if_pos h0, if_neg hz]

theorem rationalLibm_pow_pos (x y : ℚ) (hx : 0 < x) : 0 < rationalLibm.pow x y := by
  show 0 < (if x ≤ 0 then (0 : ℚ) else x ^ Int.floor y)
  rw [if_neg (not_le.mpr hx)]
  exact zpow_pos hx _

theorem rationalLibm_exp_neg (t : ℚ) (ht : 0 ≤ t) :
    1 - t ≤ rationalLibm.exp (-t) ∧ rationalLibm.exp (-t) ≤ 1 := by
  show 1 - t ≤ (if -t ≤ 0 then 1 / (1 - -t) else 1 + -t) ∧
    (if -t ≤ 0 then 1 / (1 - -t) else 1 + -t) ≤ 1
  have h0 : -t ≤ 0 := by linarith
  have hp : 0 < 1 + t := by linarith
  rw [if_pos h0, sub_neg_eq_add]
  constructor
  · rw [le_div_iff₀ hp]
    nlinarith
  · rw [div_le_iff₀ hp]
    linarith

/-- The values of `getProperties` just above the seam, in terms of those at
the seam: the temperature is the same, the pressure is multiplied by
`exp(-t)` with `t = 9.80665·eps/(287.05·216.65)`, and so is the density. -/
theorem getProperties_above_seam (m : Libm α) (eps : α) (he : 0 < eps) :
    (getProperties m 11000).temperature = 216.65 ∧
    (getProperties m (11000 + eps)).temperature = 216.65 ∧
    (getProperties m (11000 + eps)).pressure =
      (getProperties m 11000).pressure *
        m.exp (-(9.80665 * eps / (287.05 * 216.65))) ∧
    (getProperties m (11000 + eps)).density =
      (getProperties m (11000 + eps)).pressure / (287.05 * 216.65) ∧
    (getProperties m 11000).density = (getProperties m 11000).pressure / (287.05 * 216.65) := by
  have hT : (288.15 : α) - 0.0065 * 11000 = 216.65 := by norm_num
  have harg : -9.80665 * ((11000 : α) + eps - 11000) / (287.05 * 216.65)
      = -(9.80665 * eps / (287.05 * 216.65)) := by ring
  rw [getProperties_stratosphere m (11000 + eps) (by linarith),
    getProperties_troposphere m 11000 (by norm_num) (le_refl _)]
  refine ⟨hT, rfl, ?_, rfl, ?_⟩
  · show _ * m.exp (-9.80665 * ((11000 : α) + eps - 11000) / (287.05 * 216.65)) = _
    rw [harg]
  · show _ / (287.05 * ((288.15 : α) - 0.0065 * 11000)) = _
    rw [hT]

/-- The decay rate `9.80665/(287.05·216.65)` of the isothermal layer is
positive. -/
theorem decay_rate_pos : (0 : α) < 9.80665 / (287.05 * 216.65) := by norm_num

/-- C11: when the pressure at 11000 m is non-negative and `exp` satisfies
`1 - t ≤ exp(-t) ≤ 1` for `t ≥ 0`, then just above the seam, at `11000 + eps`
with `eps > 0`: `T = T0 = 216.65`, `P = P0·exp(-9.80665·eps/(287.05·216.65))`,
`rho = P/(287.05·216.65)`, `|P - P0| ≤ P0·9.80665·eps/(287.05·216.65)` and
`|rho - rho0| ≤ rho0·9.80665·eps/(287.05·216.65)`; hence pressure and density
come as close to their 11000 m values as wished when `eps` is small, and the
temperature does not change. -/
theorem C11_seam_continuity (m : Libm α)
    (hP0 : 0 ≤ (getProperties m 11000).pressure)
    (hexp : ∀ t : α, 0 ≤ t → 1 - t ≤ m.exp (-t) ∧ m.exp (-t) ≤ 1) :
    (∀ eps : α, 0 < eps →
      (getProperties m (11000 + eps)).temperature = 216.65 ∧
      (getProperties m 11000).temperature = 216.65 ∧
      (getProperties m (11000 + eps)).pressure =
        (getProperties m 11000).pressure *
          m.exp (-9.80665 * eps / (287.05 * 216.65)) ∧
      (getProperties m (11000 + eps)).density =
        (getProperties m (11000 + eps)).pressure / (287.05 * 216.65) ∧
      |(getProperties m (11000 + eps)).pressure - (getProperties m 11000).pressure| ≤
        (getProperties m 11000).pressure * (9.80665 * eps / (287.05 * 216.65)) ∧
      |(getProperties m (11000 + eps)).density - (getProperties m 11000).density| ≤
        (getProperties m 11000).density * (9.80665 * eps / (287.05 * 216.65))) ∧
    (∀ delta : α, 0 < delta → ∃ eta : α, 0 < eta ∧ ∀ eps : α, 0 < eps → eps < eta →
      |(getProperties m (11000 + eps)).pressure - (getProperties m 11000).pressure| ≤ delta ∧
      |(getProperties m (11000 + eps)).density - (getProperties m 11000).density| ≤ delta ∧
      (getProperties m (11000 + eps)).temperature = (getProperties m 11000).temperature) := by
  have hRT : (0 : α) < 287.05 * 216.65 := by norm_num
  have bounds : ∀ eps : α, 0 < eps →
      |(getProperties m (11000 + eps)).pressure - (getProperties m 11000).pressure| ≤
        (getProperties m 11000).pressure * (9.80665 * eps / (287.05 * 216.65)) ∧
      |(getProperties m (11000 + eps)).density - (getProperties m 11000).density| ≤
        (getProperties m 11000).density * (9.80665 * eps / (287.05 * 216.65)) := by
    intro eps he
    obtain ⟨_, _, hP, hrho, hrho0⟩ := getProperties_above_seam m eps he
    have ht : (0 : α) ≤ 9.80665 * eps / (287.05 * 216.65) :=
      div_nonneg (mul_nonneg (by norm_num) (le_of_lt he)) (le_of_lt hRT)
    obtain ⟨hlo, hhi⟩ := hexp _ ht
    have hPabs : |(getProperties m (11000 + eps)).pressure - (getProperties m 11000).pressure|
        ≤ (getProperties m 11000).pressure * (9.80665 * eps / (287.05 * 216.65)) := by
      rw [hP, abs_le]
      constructor <;> nlinarith
    refine ⟨hPabs, ?_⟩
    rw [hrho, hrho0, ← sub_div, abs_div, abs_of_pos hRT, div_mul_eq_mul_div]
    exact div_le_div_of_nonneg_right hPabs (le_of_lt hRT)
  refine ⟨fun eps he => ?_, fun delta hd => ?_⟩
  · obtain ⟨hT0, hT, hP, hrho, _⟩ := getProperties_above_seam m eps he
    have harg : -9.80665 * eps / (287.05 * 216.65)
        = -((9.80665 : α) * eps / (287.05 * 216.65)) := by ring
    rw [harg]
    exact ⟨hT, hT0, hP, hrho, (bounds eps he).1, (bounds eps he).2⟩
  · have hrho0 : 0 ≤ (getProperties m 11000).density := by
      rw [(getProperties_above_seam m 1 one_pos).2.2.2.2]
      exact div_nonneg hP0 (le_of_lt hRT)
    have hk : (0 : α) < 9.80665 / (287.05 * 216.65) := decay_rate_pos
    have hc : 0 < ((getProperties m 11000).pressure + (getProperties m 11000).density)
        * (9.80665 / (287.05 * 216.65)) + 1 := by positivity
    refine ⟨delta / (((getProperties m 11000).pressure + (getProperties m 11000).density)
        * (9.80665 / (287.05 * 216.65)) + 1), div_pos hd hc, fun eps he hlt => ?_⟩
    rw [lt_div_iff₀ hc] at hlt
    obtain ⟨hT0, hT, _, _, _⟩ := getProperties_above_seam m eps he
    have hb := bounds eps he
    have hsplit : (9.80665 : α) * eps / (287.05 * 216.65)
        = 9.80665 / (287.05 * 216.65) * eps := by ring
    rw [hsplit] at hb
    have hke : 0 ≤ (9.80665 : α) / (287.05 * 216.65) * eps :=
      mul_nonneg (le_of_lt hk) (le_of_lt he)
    refine ⟨le_trans hb.1 ?_, le_trans hb.2 ?_, by rw [hT, hT0]⟩
    · nlinarith [mul_nonneg hrho0 hke, mul_nonneg hP0 hke]
    · nlinarith [mul_nonneg hrho0 hke, mul_nonneg hP0 hke]

/-- C11, witness: one metre above the seam. -/
theorem C11_seam_continuity_witness :
    0 ≤ (getProperties rationalLibm (11000 : ℚ)).pressure ∧
    (∀ t : ℚ, 0 ≤ t → 1 - t ≤ rationalLibm.exp (-t) ∧ rationalLibm.exp (-t) ≤ 1) ∧
    (getProperties rationalLibm (11000 + 1 : ℚ)).temperature = 216.65 ∧
    |(getProperties rationalLibm (11000 + 1 : ℚ)).pressure
        - (getProperties rationalLibm 11000).pressure| ≤
      (getProperties rationalLibm 11000).pressure * (9.80665 * 1 / (287.05 * 216.65)) ∧
    |(getProperties rationalLibm (11000 + 1 : ℚ)).density
        - (getProperties rationalLibm 11000).density| ≤
      (getProperties rationalLibm 11000).density * (9.80665 * 1 / (287.05 * 216.65)) := by
  have hP0 : 0 ≤ (getProperties rationalLibm (11000 : ℚ)).pressure := by
    rw [getProperties_troposphere rationalLibm 11000 (by norm_num) (le_refl _)]
    exact le_of_lt (mul_pos (by norm_num) (rationalLibm_pow_pos _ _ (by norm_num)))
  have key := (C11_seam_continuity rationalLibm hP0 rationalLibm_exp_neg).1 1 one_pos
  exact ⟨hP0, rationalLibm_exp_neg, key.1, key.2.2.2.2.1, key.2.2.2.2.2⟩

/-- C12: in the troposphere (`0 ≤ h ≤ 11000`) `getProperties` returns
`T = 288.15 - 0.0065·h`, `P = 101325·(T/288.15)^(9.80665/(0.0065·287.05))` and
`rho = P/(287.05·T)`; above 11000 m it returns `T = 216.65`,
`P = P11·exp(-9.80665·(h - 11000)/(287.05·216.65))` with `P11` the pressure
returned at exactly 11000 m, and `rho = P/(287.05·T)`; for every altitude the
speed of sound is `sqrt(1.4·287.05·T)`. -/
theorem C12_isa_reference (m : Libm α) (h : α) :
    (0 ≤ h ∧ h ≤ 11000 →
      (getProperties m h).temperature = 288.15 - 0.0065 * h ∧
      (getProperties m h).pressure =
        101325 * m.pow ((getProperties m h).temperature / 288.15)
          (9.80665 / (0.0065 * 287.05)) ∧
      (getProperties m h).density =
        (getProperties m h).pressure / (287.05 * (getProperties m h).temperature)) ∧
    (11000 < h →
      (getProperties m h).temperature = 216.65 ∧
      (getProperties m h).pressure =
        (getProperties m 11000).pressure *
          m.exp (-9.80665 * (h - 11000) / (287.05 * 216.65)) ∧
      (getProperties m h).density =
        (getProperties m h).pressure / (287.05 * (getProperties m h).temperature)) ∧
    (getProperties m h).speedOfSound =
      m.sqrt (1.4 * 287.05 * (getProperties m h).temperature) := by
  refine ⟨fun hh => ?_, fun hh => ?_, ?_⟩
  · rw [getProperties_troposphere m h hh.1 hh.2]
    exact ⟨rfl, rfl, rfl⟩
  · rw [getProperties_stratosphere m h hh,
      getProperties_troposphere m 11000 (by norm_num) (le_refl _)]
    exact ⟨rfl, rfl, rfl⟩
  · rcases lt_or_le h 0 with hneg | hpos
    · rw [getProperties_negative m h hneg,
        getProperties_troposphere m 0 (le_refl _) (by norm_num)]
    · rcases le_or_lt h 11000 with hlow | hhigh
      · rw [getProperties_troposphere m h hpos hlow]
      · rw [getProperties_stratosphere m h hhigh]

/-- C12, witness: 5000 m in the troposphere and 12000 m above it. -/
theorem C12_isa_reference_witness :
    ((0 : ℚ) ≤ 5000 ∧ (5000 : ℚ) ≤ 11000) ∧
    (getProperties sampleLibm (5000 : ℚ)).temperature = 288.15 - 0.0065 * 5000 ∧
    (11000 : ℚ) < 12000 ∧
    (getProperties sampleLibm (12000 : ℚ)).temperature = 216.65 ∧
    (getProperties sampleLibm (12000 : ℚ)).pressure =
      (getProperties sampleLibm 11000).pressure *
        sampleLibm.exp (-9.80665 * (12000 - 11000) / (287.05 * 216.65)) := by
  have h1 : (0 : ℚ) ≤ 5000 ∧ (5000 : ℚ) ≤ 11000 := by norm_num
  have h2 : (11000 : ℚ) < 12000 := by norm_num
  exact ⟨h1, ((C12_isa_reference sampleLibm 5000).1 h1).1, h2,
    ((C12_isa_reference sampleLibm 12000).2.1 h2).1,
    ((C12_isa_reference sampleLibm 12000).2.1 h2).2.1⟩

/-- C13: for a negative altitude `getProperties` returns what it returns at
altitude zero; the temperature is `288.15`, and the pressure is `101325` as
soon as `pow(1, y) = 1` for the exponent used. -/
theorem C13_negative_altitude (m : Libm α) (h : α) (h0 : h < 0) :
    getProperties m h = getProperties m 0 ∧
    (getProperties m h).temperature = 288.15 ∧
    (m.pow 1 (9.80665 / (0.0065 * 287.05)) = 1 → (getProperties m h).pressure = 101325) := by
  have hT : (288.15 : α) - 0.0065 * 0 = 288.15 := by norm_num
  have hq : ((288.15 : α) - 0.0065 * 0) / 288.15 = 1 := by norm_num
  refine ⟨getProperties_negative m h h0, ?_, fun hpow => ?_⟩
  · rw [getProperties_negative m h h0, getProperties_troposphere m 0 (le_refl _) (by norm_num)]
    exact hT
  · rw [getProperties_negative m h h0, getProperties_troposphere m 0 (le_refl _) (by norm_num)]
    show 101325 * m.pow (((288.15 : α) - 0.0065 * 0) / 288.15) (9.80665 / (0.0065 * 287.05))
      = 101325
    rw [hq, hpow, mul_one]

/-- C13, witness: fifty metres below sea level. -/
theorem C13_negative_altitude_witness :
    (-50 : ℚ) < 0 ∧ sampleLibm.pow 1 (9.80665 / (0.0065 * 287.05)) = 1 ∧
    getProperties sampleLibm (-50 : ℚ) = getProperties sampleLibm 0 ∧
    (getProperties sampleLibm (-50 : ℚ)).temperature = 288.15 ∧
    (getProperties sampleLibm (-50 : ℚ)).pressure = 101325 := by
  have h0 : (-50 : ℚ) < 0 := by norm_num
  have hp : sampleLibm.pow 1 (9.80665 / (0.0065 * 287.05)) = 1 := by
    show (1 : ℚ) + 9.80665 / (0.0065 * 287.05) * (1 - 1) = 1
    norm_num
  have key := C13_negative_altitude sampleLibm (-50) h0
  exact ⟨h0, hp, key.1, key.2.1, key.2.2 hp⟩

end AtmosphereFacts

/-! ## Aerodynamic coefficients and angles (C15, C16, C17, C18) -/

section Coefficients

variable {α : Type} [LinearOrderedField α]

/-- The lift coefficient as a multiple of the distance of `alpha` from the
zero-lift angle `-(0.28 + 0.36·e)/4.58`. -/
theorem getCL_eq_slope (a : Aircraft α) (alpha e : α) :
    a.getCL alpha e = 4.58 * (alpha - -(0.28 + 0.36 * e) / 4.58) := by
  unfold Aircraft.getCL
  field_simp
  ring

theorem getCD_eq (a : Aircraft α) (alpha : α) :
    a.getCD alpha = 0.027 + 0.045 * (a.getCL alpha a.state.elevator) ^ 2 := by
  unfold Aircraft.getCD
  ring

/-- C15: `getCD(alpha) = 0.027 + 0.045·getCL(alpha, state.elevator)²` with the
elevator stored in the aircraft; two aircraft that store the same elevator
return the same drag coefficient, whatever their other fields. -/
theorem C15_drag_uses_stored_elevator (a : Aircraft α) (alpha : α) :
    a.getCD alpha = 0.027 + 0.045 * (a.getCL alpha a.state.elevator) ^ 2 ∧
    (∀ b : Aircraft α, b.state.elevator = a.state.elevator → b.getCD alpha = a.getCD alpha) := by
  refine ⟨getCD_eq a alpha, fun b hb => ?_⟩
  unfold Aircraft.getCD Aircraft.getCL
  rw [hb]

/-- C15, witness: the constructor's aircraft and the aircraft at rest on the
ground store the same elevator. -/
theorem C15_drag_uses_stored_elevator_witness :
    grounded.state.elevator = (Aircraft.ctor : Aircraft ℚ).state.elevator ∧
    grounded.getCD (1 / 10) = (Aircraft.ctor : Aircraft ℚ).getCD (1 / 10) :=
  ⟨rfl, (C15_drag_uses_stored_elevator (Aircraft.ctor : Aircraft ℚ) (1 / 10)).2 grounded rfl⟩

/-- C16: `getCD(alpha) ≥ 0.027`, with equality exactly when
`getCL(alpha, e) = 0` for the stored elevator `e`, that is at
`alpha = -(0.28 + 0.36·e)/4.58`; this angle minimises `getCL(alpha, e)²`; and
`getCD` is strictly increasing in the distance of `alpha` from it. -/
theorem C16_drag_polar_minimum (a : Aircraft α) (alpha : α) :
    0.027 ≤ a.getCD alpha ∧
    (a.getCD alpha = 0.027 ↔ a.getCL alpha a.state.elevator = 0) ∧
    (a.getCL alpha a.state.elevator = 0 ↔ alpha = -(0.28 + 0.36 * a.state.elevator) / 4.58) ∧
    (a.getCL (-(0.28 + 0.36 * a.state.elevator) / 4.58) a.state.elevator) ^ 2
      ≤ (a.getCL alpha a.state.elevator) ^ 2 ∧
    (∀ alpha2 : α,
      |alpha - -(0.28 + 0.36 * a.state.elevator) / 4.58|
        < |alpha2 - -(0.28 + 0.36 * a.state.elevator) / 4.58| →
      a.getCD alpha < a.getCD alpha2) := by
  have hsq : 0 ≤ (a.getCL alpha a.state.elevator) ^ 2 := sq_nonneg _
  have hK : (0 : α) < 0.045 := by norm_num
  refine ⟨?_, ?_, ?_, ?_, ?_⟩
  · rw [getCD_eq]
    nlinarith
  · rw [getCD_eq]
    constructor
    · intro h
      have h2 : (a.getCL alpha a.state.elevator) ^ 2 = 0 := by
        have h3 : (0.045 : α) * (a.getCL alpha a.state.elevator) ^ 2 = 0 := by linarith
        rcases mul_eq_zero.mp h3 with h4 | h4
        · exact absurd h4 (ne_of_gt hK)
        · exact h4
      exact pow_eq_zero_iff (two_ne_zero) |>.mp h2
    · intro h
      rw [h]
      norm_num
  · rw [getCL_eq_slope]
    constructor
    · intro h
      rcases mul_eq_zero.mp h with h4 | h4
      · exact absurd h4 (by norm_num)
      · exact sub_eq_zero.mp h4
    · intro h
      rw [h, sub_self, mul_zero]
  · rw [getCL_eq_slope a (-(0.28 + 0.36 * a.state.elevator) / 4.58), sub_self, mul_zero]
    nlinarith
  · intro alpha2 hlt
    have hsq2 : (alpha - -(0.28 + 0.36 * a.state.elevator) / 4.58) ^ 2
        < (alpha2 - -(0.28 + 0.36 * a.state.elevator) / 4.58) ^ 2 := sq_lt_sq.mpr hlt
    rw [getCD_eq, getCD_eq, getCL_eq_slope a alpha, getCL_eq_slope a alpha2]
    have h458 : (0 : α) < 4.58 ^ 2 := by norm_num
    have hm := mul_lt_mul_of_pos_left hsq2 h458
    rw [mul_pow, mul_pow]
    linarith [mul_lt_mul_of_pos_left hm hK]

/-- C16, witness: at elevator zero the drag at `alpha = 0` is below the drag at
`alpha = 1`. -/
theorem C16_drag_polar_minimum_witness :
    |(0 : ℚ) - -(0.28 + 0.36 * (Aircraft.ctor : Aircraft ℚ).state.elevator) / 4.58|
      < |(1 : ℚ) - -(0.28 + 0.36 * (Aircraft.ctor : Aircraft ℚ).state.elevator) / 4.58| ∧
    (Aircraft.ctor : Aircraft ℚ).getCD 0 < (Aircraft.ctor : Aircraft ℚ).getCD 1 := by
  have he : (Aircraft.ctor : Aircraft ℚ).state.elevator = 0 := lit_zero
  have h : |(0 : ℚ) - -(0.28 + 0.36 * (Aircraft.ctor : Aircraft ℚ).state.elevator) / 4.58|
      < |(1 : ℚ) - -(0.28 + 0.36 * (Aircraft.ctor : Aircraft ℚ).state.elevator) / 4.58| := by
    rw [he, abs_of_pos (by norm_num), abs_of_pos (by norm_num)]
    norm_num
  exact ⟨h, (C16_drag_polar_minimum (Aircraft.ctor : Aircraft ℚ) 0).2.2.2.2 1 h⟩

/-- C17: `getCL(alpha, elevator) = 0.28 + 4.58·alpha + 0.36·elevator` whatever
the aircraft stores, and `getCL(0, 0) = 0.28`. -/
theorem C17_linear_lift (a : Aircraft α) (alpha elevator : α) :
    a.getCL alpha elevator = 0.28 + 4.58 * alpha + 0.36 * elevator ∧
    (∀ b : Aircraft α, b.getCL alpha elevator = a.getCL alpha elevator) ∧
    a.getCL 0 0 = 0.28 := by
  refine ⟨rfl, fun _ => rfl, ?_⟩
  unfold Aircraft.getCL
  simp only [mul_zero, add_zero]

/-- C18: with stored velocity `(u, v, w)`, `getAngleOfAttack` returns
`atan2(w, u)` when `u > 0.1` and zero otherwise (in particular at `u = 0.1` and
for `u < 0`); `getSideslip` returns `asin(v/V)` with
`V = sqrt(u·u + v·v + w·w)` when `V > 0.1`, and zero otherwise. -/
theorem C18_guarded_angles (m : Libm α) (a : Aircraft α) (u v w : α)
    (hvel : a.state.velocity = ⟨u, v, w⟩) :
    (0.1 < u → a.getAngleOfAttack m = m.atan2 w u) ∧
    (¬ 0.1 < u → a.getAngleOfAttack m = 0) ∧
    (u = 0.1 → a.getAngleOfAttack m = 0) ∧
    (u < 0 → a.getAngleOfAttack m = 0) ∧
    a.getAirspeed m = m.sqrt (u * u + v * v + w * w) ∧
    (0.1 < m.sqrt (u * u + v * v + w * w) →
      a.getSideslip m = m.asin (v / m.sqrt (u * u + v * v + w * w))) ∧
    (¬ 0.1 < m.sqrt (u * u + v * v + w * w) → a.getSideslip m = 0) := by
  have hA : a.getAirspeed m = m.sqrt (u * u + v * v + w * w) := by
    unfold Aircraft.getAirspeed Vector3.magnitude
    rw [hvel]
  have hno : ¬ 0.1 < u → a.getAngleOfAttack m = 0 := by
    intro h
    unfold Aircraft.getAngleOfAttack
    rw [hvel]
    show (if u > 0.1 then m.atan2 w u else 0.0) = 0
    rw [if_neg h, lit_zero]
  refine ⟨fun h => ?_, hno, fun h => hno ?_, fun h => hno ?_, hA, fun h => ?_, fun h => ?_⟩
  · unfold Aircraft.getAngleOfAttack
    rw [hvel]
    show (if u > 0.1 then m.atan2 w u else 0.0) = _
    rw [if_pos h]
  · rw [h]
    exact lt_irrefl _
  · exact not_lt.mpr (le_of_lt (lt_trans h (by norm_num)))
  · unfold Aircraft.getSideslip
    rw [hA, hvel]
    show (if m.sqrt (u * u + v * v + w * w) > 0.1 then
      m.asin (v / m.sqrt (u * u + v * v + w * w)) else 0.0) = _
    rw [if_pos h]
  · unfold Aircraft.getSideslip
    rw [hA, hvel]
    show (if m.sqrt (u * u + v * v + w * w) > 0.1 then
      m.asin (v / m.sqrt (u * u + v * v + w * w)) else 0.0) = _
    rw [if_neg h, lit_zero]

/-- C18, witness: forward flight at 50 m/s, and the aircraft at rest. -/
theorem C18_guarded_angles_witness :
    (Aircraft.ctor : Aircraft ℚ).state.velocity = ⟨50, 0, 0⟩ ∧ (0.1 : ℚ) < 50 ∧
    (Aircraft.ctor : Aircraft ℚ).getAngleOfAttack rationalLibm = rationalLibm.atan2 0 50 ∧
    (0.1 : ℚ) < rationalLibm.sqrt (50 * 50 + 0 * 0 + 0 * 0) ∧
    (Aircraft.ctor : Aircraft ℚ).getSideslip rationalLibm
      = rationalLibm.asin (0 / rationalLibm.sqrt (50 * 50 + 0 * 0 + 0 * 0)) ∧
    grounded.state.velocity = ⟨0, 0, 0⟩ ∧ ¬ (0.1 : ℚ) < 0 ∧
    grounded.getAngleOfAttack rationalLibm = 0 ∧
    ¬ (0.1 : ℚ) < rationalLibm.sqrt (0 * 0 + 0 * 0 + 0 * 0) ∧
    grounded.getSideslip rationalLibm = 0 := by
  have hu : (0.1 : ℚ) < 50 := by norm_num
  have hV : (0.1 : ℚ) < rationalLibm.sqrt (50 * 50 + 0 * 0 + 0 * 0) := by
    show (0.1 : ℚ) < (if (50 * 50 + 0 * 0 + 0 * 0 : ℚ) ≤ 0 then 0
      else (1 + (50 * 50 + 0 * 0 + 0 * 0)) / 2)
    norm_num
  have hu0 : ¬ (0.1 : ℚ) < 0 := by norm_num
  have hV0 : ¬ (0.1 : ℚ) < rationalLibm.sqrt (0 * 0 + 0 * 0 + 0 * 0) := by
    show ¬ (0.1 : ℚ) < (if (0 * 0 + 0 * 0 + 0 * 0 : ℚ) ≤ 0 then 0
      else (1 + (0 * 0 + 0 * 0 + 0 * 0)) / 2)
    norm_num
  have k1 := C18_guarded_angles rationalLibm (Aircraft.ctor : Aircraft ℚ) 50 0 0 rfl
  have k2 := C18_guarded_angles rationalLibm grounded 0 0 0 rfl
  exact ⟨rfl, hu, k1.1 hu, hV, k1.2.2.2.2.2.1 hV, rfl, hu0, k2.2.1 hu0, hV0,
    k2.2.2.2.2.2.2 hV0⟩

end Coefficients

/-! ## The input handler (C19) -/

section Input

variable {α : Type} [LinearOrderedField α]

open InputHandler

/-- The clamp `max(-1, min(1, x))` lies in `[-1, 1]`. -/
theorem clamp_unit (x : α) : -1 ≤ max (-1.0 : α) (min 1.0 x) ∧ max (-1.0 : α) (min 1.0 x) ≤ 1 := by
  have h1 : (1.0 : α) = 1 := by norm_num
  rw [h1]
  exact ⟨le_max_left _ _, max_le (by norm_num) (min_le_left _ _)⟩

/-- The value left by `applyDeadzone` lies in `[-0.98, 0.98]`. -/
theorem applyDeadzone_bounds (x : α) :
    -0.98 ≤ applyDeadzone x ∧ applyDeadzone x ≤ 0.98 := by
  unfold applyDeadzone
  have h := clamp_unit (if |x| < 0.01 then (0.0 : α) else x)
  have h98 : (0 : α) < 0.98 := by norm_num
  constructor <;> nlinarith [h.1, h.2]

theorem applyDeadzone_unit (x : α) : -1 ≤ applyDeadzone x ∧ applyDeadzone x ≤ 1 := by
  have h := applyDeadzone_bounds x
  have h98 : (0.98 : α) ≤ 1 := by norm_num
  exact ⟨by linarith [h.1], by linarith [h.2]⟩

/-- The throttle clamp `max(0, min(1, x))` lies in `[0, 1]`. -/
theorem clamp_throttle (x : α) : 0 ≤ max (0.0 : α) (min 1.0 x) ∧ max (0.0 : α) (min 1.0 x) ≤ 1 := by
  have h1 : (1.0 : α) = 1 := by norm_num
  rw [h1, lit_zero]
  exact ⟨le_max_left _ _, max_le (by norm_num) (min_le_left _ _)⟩

/-- When `InputHandler::update` returns with the pause flag clear it has
written controls in range; when it returns with the flag set it has left the
aircraft alone. -/
theorem input_update_cases (h : InputHandler α) (window : Key → Bool) (a : Aircraft α)
    (dt : α) :
    ((InputHandler.update h window a dt).1.paused = false ∧
      controlsInRange (InputHandler.update h window a dt).2.state) ∨
    ((InputHandler.update h window a dt).1.paused = true ∧
      (InputHandler.update h window a dt).2 = a) := by
  unfold InputHandler.update
  dsimp only
  by_cases hp : (pollToggles h window).paused = true
  · rw [if_pos hp]
    exact Or.inr ⟨hp, rfl⟩
  · rw [if_neg hp]
    refine Or.inl ⟨by simpa using hp, ?_⟩
    exact ⟨applyDeadzone_unit _, applyDeadzone_unit _, applyDeadzone_unit _, clamp_throttle _⟩

theorem ctor_controlsInRange : controlsInRange (Aircraft.ctor : Aircraft α).state := by
  unfold controlsInRange
  show (-1 ≤ (0.0 : α) ∧ (0.0 : α) ≤ 1) ∧ (-1 ≤ (0.0 : α) ∧ (0.0 : α) ≤ 1) ∧
    (-1 ≤ (0.0 : α) ∧ (0.0 : α) ≤ 1) ∧ (0 ≤ (0.5 : α) ∧ (0.5 : α) ≤ 1)
  norm_num

theorem controlsInRange_of_sameControls (s t : AircraftState α) (h : sameControls s t)
    (ht : controlsInRange t) : controlsInRange s := by
  unfold controlsInRange at *
  rw [h.1, h.2.1, h.2.2.1, h.2.2.2]
  exact ht

theorem update_sameControls [FloorRing α] (m : Libm α) (a : Aircraft α) (dt : α) :
    sameControls (FlightDynamics.update m a dt).state a.state := by
  rw [update_state]
  exact groundCollision_sameControls (FlightDynamics.wrapYaw (FlightDynamics.integrate m a dt).state)

/-- C19: after `InputHandler::update`, for every prior handler, every
combination of pressed keys and every time step: if the handler is not paused,
the elevator, aileron and rudder written to the aircraft lie in `[-1, 1]` and
the throttle in `[0, 1]`; if it is paused, the aircraft is untouched.  Hence
the control ranges hold in every state reachable from the constructors by
`InputHandler::update`, `FlightDynamics::reset` and `FlightDynamics::update`. -/
theorem C19_controls_in_range [FloorRing α] (m : Libm α) :
    (∀ (h : InputHandler α) (window : Key → Bool) (a : Aircraft α) (dt : α),
      ((InputHandler.update h window a dt).1.paused = false →
        controlsInRange (InputHandler.update h window a dt).2.state) ∧
      ((InputHandler.update h window a dt).1.paused = true →
        (InputHandler.update h window a dt).2 = a)) ∧
    (∀ p : InputHandler α × Aircraft α, SimReachable m p → controlsInRange p.2.state) := by
  constructor
  · intro h window a dt
    rcases input_update_cases h window a dt with ⟨hp, hr⟩ | ⟨hp, hr⟩
    · exact ⟨fun _ => hr, fun ht => by rw [hp] at ht; exact absurd ht (by decide)⟩
    · exact ⟨fun hf => by rw [hp] at hf; exact absurd hf (by decide), fun _ => hr⟩
  · intro p hp
    induction hp with
    | ctor => exact ctor_controlsInRange
    | input h a window dt _ ih =>
      rcases input_update_cases h window a dt with ⟨_, hr⟩ | ⟨_, hr⟩
      · exact hr
      · rw [hr]
        exact ih
    | reset h a _ ih => exact ih
    | step h a dt _ ih =>
      exact controlsInRange_of_sameControls _ _ (update_sameControls m a dt) ih

/-- C19, witness: from the constructors, with `W` held for one tick (handler
running), and with `P` pressed (handler paused, aircraft untouched). -/
theorem C19_controls_in_range_witness :
    (InputHandler.update (InputHandler.ctor : InputHandler ℚ) pressW Aircraft.ctor
        (1 / 60)).1.paused = false ∧
    controlsInRange (InputHandler.update (InputHandler.ctor : InputHandler ℚ) pressW
        Aircraft.ctor (1 / 60)).2.state ∧
    (InputHandler.update (InputHandler.ctor : InputHandler ℚ) pressP Aircraft.ctor
        (1 / 60)).1.paused = true ∧
    (InputHandler.update (InputHandler.ctor : InputHandler ℚ) pressP Aircraft.ctor
        (1 / 60)).2 = Aircraft.ctor ∧
    SimReachable sampleLibm
      (InputHandler.update (InputHandler.ctor : InputHandler ℚ) pressW Aircraft.ctor (1 / 60)) ∧
    controlsInRange (InputHandler.update (InputHandler.ctor : InputHandler ℚ) pressW
        Aircraft.ctor (1 / 60)).2.state := by
  have hW : (InputHandler.update (InputHandler.ctor : InputHandler ℚ) pressW Aircraft.ctor
      (1 / 60)).1.paused = false := rfl
  have hP : (InputHandler.update (InputHandler.ctor : InputHandler ℚ) pressP Aircraft.ctor
      (1 / 60)).1.paused = true := rfl
  have hr : SimReachable sampleLibm
      (InputHandler.update (InputHandler.ctor : InputHandler ℚ) pressW Aircraft.ctor (1 / 60)) :=
    SimReachable.input _ _ _ _ SimReachable.ctor
  have key := C19_controls_in_range sampleLibm
  exact ⟨hW, ((key.1 _ _ _ _).1 hW), hP, ((key.1 _ _ _ _).2 hP), hr, key.2 _ hr⟩

end Input

/-! ## The velocity derivative (C20) -/

section VelocityDerivative

variable {α : Type} [LinearOrderedField α]

open FlightDynamics

@[simp] theorem Vector3.sub_x (a v : Vector3 α) : (a - v).x = a.x - v.x := rfl
@[simp] theorem Vector3.sub_y (a v : Vector3 α) : (a - v).y = a.y - v.y := rfl
@[simp] theorem Vector3.sub_z (a v : Vector3 α) : (a - v).z = a.z - v.z := rfl
@[simp] theorem Vector3.div_x (a : Vector3 α) (s : α) : (a / s).x = a.x / s := rfl
@[simp] theorem Vector3.div_y (a : Vector3 α) (s : α) : (a / s).y = a.y / s := rfl
@[simp] theorem Vector3.div_z (a : Vector3 α) (s : α) : (a / s).z = a.z / s := rfl

/-- The force returned by `calculateForces` for the aircraft holding `s`, as
the sum of aerodynamic force, thrust and weight. -/
theorem calculateForces_holding (m : Libm α) (s : AircraftState α) :
    calculateForces m (Aircraft.holding s) s =
      Spec.aero m (dynamicPressure m s * 16.2)
          ((Aircraft.holding s).getCL ((Aircraft.holding s).getAngleOfAttack m) s.elevator)
          ((Aircraft.holding s).getCD ((Aircraft.holding s).getAngleOfAttack m))
          ((Aircraft.holding s).getCY ((Aircraft.holding s).getSideslip m) s.rudder)
          ((Aircraft.holding s).getAngleOfAttack m)
        + Spec.thrust s.throttle + Spec.gravity m 1043 s.roll s.pitch := by
  have h1043 : (1043.0 : α) = 1043 := by norm_num
  have h2000 : (2000.0 : α) = 2000 := by norm_num
  ext
  · show _ = _ * _ + s.throttle * 2000 + 1043 * 9.81 * -m.sin s.pitch
    simp only [calculateForces, Aircraft.holding, Aircraft.ctor, dynamicPressure, Vector3.add_x,
      h1043, h2000]
    ring
  · show _ = _ * _ + 0 + 1043 * 9.81 * (m.sin s.roll * m.cos s.pitch)
    simp only [calculateForces, Aircraft.holding, Aircraft.ctor, dynamicPressure, Vector3.add_y,
      h1043, h2000]
    ring
  · show _ = _ * _ + 0 + 1043 * 9.81 * (m.cos s.roll * m.cos s.pitch)
    simp only [calculateForces, Aircraft.holding, Aircraft.ctor, dynamicPressure, Vector3.add_z,
      h1043, h2000]
    ring

end VelocityDerivative

/-! ## Moments (C21) -/

section Moments

variable {α : Type} [LinearOrderedField α]

open FlightDynamics

/-- The moments returned by `calculateMoments` for the aircraft holding `s`,
in terms of the dynamic pressure of `s` and the three moment coefficients. -/
theorem calculateMoments_holding (m : Libm α) (s : AircraftState α) :
    calculateMoments m (Aircraft.holding s) s =
      ⟨dynamicPressure m s * 16.2 * 11.0 *
          (Aircraft.holding s).getCl m ((Aircraft.holding s).getSideslip m) s.aileron s.rudder,
       dynamicPressure m s * 16.2 * 1.47 *
          (Aircraft.holding s).getCm m ((Aircraft.holding s).getAngleOfAttack m) s.elevator,
       dynamicPressure m s * 16.2 * 11.0 *
          (Aircraft.holding s).getCn m ((Aircraft.holding s).getSideslip m) s.aileron
            s.rudder⟩ := rfl

/-- The dynamic pressure of the code: `1/2·rho·max(V, 0.1)²`. -/
theorem dynamicPressure_eq (m : Libm α) (s : AircraftState α) :
    dynamicPressure m s =
      1 / 2 * (Atmosphere.getProperties m (-s.position.z)).density
        * (max (s.velocity.magnitude m) 0.1) ^ 2 := by
  have h05 : (0.5 : α) = 1 / 2 := by norm_num
  unfold dynamicPressure
  dsimp only
  rw [h05]
  by_cases h : s.velocity.magnitude m < 0.1
  · rw [if_pos h, max_eq_right (le_of_lt h)]
    ring
  · rw [if_neg h, max_eq_left (not_lt.mp h)]
    ring

theorem getCl_holding (m : Libm α) (s : AircraftState α) (beta aileron rudder : α) :
    (Aircraft.holding s).getCl m beta aileron rudder =
      -0.074 * beta + 0.178 * aileron + 0.0147 * rudder
        - 0.484 * (s.angularVelocity.x * 11.0) / (2 * s.velocity.magnitude m) := by
  have h2 : (2.0 : α) = 2 := by norm_num
  show -0.074 * beta + 0.178 * aileron + 0.0147 * rudder
      + -0.484 * (s.angularVelocity.x * 11.0 / (2.0 * s.velocity.magnitude m)) = _
  rw [h2]
  ring

/-- C21 (as amended): `calculateMoments(s) = (q·S·b·Cl, q·S·c·Cm, q·S·b·Cn)`
with `S = 16.2`, `b = 11.0`, `c = 1.47` and `q = 1/2·rho·max(V, 0.1)²`, where
`rho` is the density at altitude `-s.position.z` and `V = |s.velocity|`; when
`V ≥ 0.1` this is `q = 1/2·rho·V²` and
`Cl = -0.074·beta + 0.178·aileron + 0.0147·rudder - 0.484·(p·b)/(2V)`. -/
theorem C21_moments (m : Libm α) (s : AircraftState α) :
    calculateMoments m (Aircraft.holding s) s =
      ⟨dynamicPressure m s * 16.2 * 11.0 *
          (Aircraft.holding s).getCl m ((Aircraft.holding s).getSideslip m) s.aileron s.rudder,
       dynamicPressure m s * 16.2 * 1.47 *
          (Aircraft.holding s).getCm m ((Aircraft.holding s).getAngleOfAttack m) s.elevator,
       dynamicPressure m s * 16.2 * 11.0 *
          (Aircraft.holding s).getCn m ((Aircraft.holding s).getSideslip m) s.aileron
            s.rudder⟩ ∧
    dynamicPressure m s =
      1 / 2 * (Atmosphere.getProperties m (-s.position.z)).density
        * (max (s.velocity.magnitude m) 0.1) ^ 2 ∧
    (0.1 ≤ s.velocity.magnitude m →
      dynamicPressure m s =
        1 / 2 * (Atmosphere.getProperties m (-s.position.z)).density
          * (s.velocity.magnitude m) ^ 2 ∧
      (Aircraft.holding s).getCl m ((Aircraft.holding s).getSideslip m) s.aileron s.rudder =
        -0.074 * (Aircraft.holding s).getSideslip m + 0.178 * s.aileron + 0.0147 * s.rudder
          - 0.484 * (s.angularVelocity.x * 11.0) / (2 * s.velocity.magnitude m)) := by
  refine ⟨calculateMoments_holding m s, dynamicPressure_eq m s, fun hV => ⟨?_, ?_⟩⟩
  · rw [dynamicPressure_eq, max_eq_left hV]
  · exact getCl_holding m s _ _ _

/-- C21, witness: the constructor's state, flying at 50 m/s. -/
theorem C21_moments_witness :
    (0.1 : ℚ) ≤ (Aircraft.ctor : Aircraft ℚ).state.velocity.magnitude rationalLibm ∧
    dynamicPressure rationalLibm (Aircraft.ctor : Aircraft ℚ).state =
      1 / 2 * (Atmosphere.getProperties rationalLibm
          (-(Aircraft.ctor : Aircraft ℚ).state.position.z)).density
        * ((Aircraft.ctor : Aircraft ℚ).state.velocity.magnitude rationalLibm) ^ 2 := by
  have hV : (0.1 : ℚ) ≤ (Aircraft.ctor : Aircraft ℚ).state.velocity.magnitude rationalLibm := by
    show (0.1 : ℚ) ≤ (if (50 * 50 + 0 * 0 + 0 * 0 : ℚ) ≤ 0 then 0
      else (1 + (50 * 50 + 0 * 0 + 0 * 0)) / 2)
    norm_num
  exact ⟨hV, ((C21_moments rationalLibm (Aircraft.ctor : Aircraft ℚ).state).2.2 hV).1⟩

/-- The airspeed of `slowState` under `sampleLibm` is `1/20`. -/
theorem slowState_airspeed : slowState.velocity.magnitude sampleLibm = 1 / 20 := by
  have hx : (1 / 20 * (1 / 20) + 0 * 0 + 0 * 0 : ℚ) = 1 / 400 := by norm_num
  have hn : (1 / 400 : ℚ).num = 1 := by norm_num
  have hd : (1 / 400 : ℚ).den = 400 := by norm_num
  have hs : Nat.sqrt (Int.toNat 1 * 400) = 20 := by
    show Nat.sqrt (20 * 20) = 20
    exact Nat.sqrt_eq 20
  show ((Nat.sqrt ((1 / 20 * (1 / 20) + 0 * 0 + 0 * 0 : ℚ).num.toNat
      * (1 / 20 * (1 / 20) + 0 * 0 + 0 * 0 : ℚ).den) : ℕ) : ℚ)
      / ((1 / 20 * (1 / 20) + 0 * 0 + 0 * 0 : ℚ).den : ℚ) = 1 / 20
  rw [hx, hn, hd, hs]
  norm_num

/-- The density at the altitude of `slowState` under `sampleLibm`. -/
theorem slowState_density :
    (Atmosphere.getProperties sampleLibm (-slowState.position.z)).density
      = 101325 / (287.05 * 288.15) := by
  have hz : -slowState.position.z = 0 := neg_zero
  rw [hz, getProperties_troposphere sampleLibm 0 (le_refl _) (by norm_num)]
  show (101325 : ℚ) * (1 + 9.80665 / (0.0065 * 287.05) * ((288.15 - 0.0065 * 0) / 288.15 - 1))
      / (287.05 * (288.15 - 0.0065 * 0)) = _
  norm_num

/-- C21, counterexample to the claim as stated: at an airspeed of 0.05 m/s the
rolling moment returned by `calculateMoments` is not `q·S·b·Cl` with
`q = 1/2·rho·V²`; the code uses `V = 0.1` in `q`. -/
theorem C21_counterexample :
    ¬ ((calculateMoments sampleLibm (Aircraft.holding slowState) slowState).x =
        (1 / 2 * (Atmosphere.getProperties sampleLibm (-slowState.position.z)).density
            * (slowState.velocity.magnitude sampleLibm) ^ 2) * 16.2 * 11.0 *
          (-0.074 * (Aircraft.holding slowState).getSideslip sampleLibm
            + 0.178 * slowState.aileron + 0.0147 * slowState.rudder
            - 0.484 * (slowState.angularVelocity.x * 11.0)
                / (2 * slowState.velocity.magnitude sampleLibm))) := by
  have hV := slowState_airspeed
  have hrho := slowState_density
  have hbeta : (Aircraft.holding slowState).getSideslip sampleLibm = 0 := by
    show (if slowState.velocity.magnitude sampleLibm > 0.1 then
      sampleLibm.asin (slowState.velocity.y / slowState.velocity.magnitude sampleLibm)
      else 0.0) = 0
    rw [hV]
    norm_num
  have hq : dynamicPressure sampleLibm slowState
      = 1 / 2 * (101325 / (287.05 * 288.15)) * (0.1 : ℚ) ^ 2 := by
    rw [dynamicPressure_eq, hrho, hV]
    norm_num
  have hcode : (calculateMoments sampleLibm (Aircraft.holding slowState) slowState).x
      = dynamicPressure sampleLibm slowState * 16.2 * 11.0 *
        ((Aircraft.holding slowState).getCl sampleLibm
          ((Aircraft.holding slowState).getSideslip sampleLibm) slowState.aileron
          slowState.rudder) := by
    rw [calculateMoments_holding]
  rw [hcode, getCl_holding, hq, hrho, hbeta, hV]
  have ha : slowState.aileron = 1 := rfl
  have hr : slowState.rudder = 0 := lit_zero
  have hp : slowState.angularVelocity.x = 0 := rfl
  rw [ha, hr, hp]
  norm_num

end Moments

/-! ## The velocity derivative in components (C20) -/

section VelocityFormula

variable {α : Type} [LinearOrderedField α]

open FlightDynamics

/-- The velocity derivative of `computeDerivative`, component by component,
with the dynamic pressure the code uses (airspeed raised to at least `0.1`). -/
theorem velocityDot_holding (m : Libm α) (stored s : AircraftState α) :
    (computeDerivative m (Aircraft.holding stored) s).1.velocityDot =
      Spec.velocityDot m s (Spec.dynamicPressureAt m s (max (Spec.airspeed m s) 0.1)) := by
  have h1043 : (1043.0 : α) = 1043 := by norm_num
  have hq : Spec.dynamicPressureAt m s (max (Spec.airspeed m s) 0.1) = dynamicPressure m s := by
    rw [dynamicPressure_eq]
    rfl
  have halpha : Spec.alpha m s = (Aircraft.holding s).getAngleOfAttack m := by
    show (if s.velocity.x > 0.1 then m.atan2 s.velocity.z s.velocity.x else 0)
      = (if s.velocity.x > 0.1 then m.atan2 s.velocity.z s.velocity.x else 0.0)
    rw [lit_zero]
  have hbeta : Spec.beta m s = (Aircraft.holding s).getSideslip m := by
    show (if Spec.airspeed m s > 0.1 then m.asin (s.velocity.y / Spec.airspeed m s) else 0)
      = (if Spec.airspeed m s > 0.1 then m.asin (s.velocity.y / Spec.airspeed m s) else 0.0)
    rw [lit_zero]
  have hcode : (computeDerivative m (Aircraft.holding stored) s).1.velocityDot =
      calculateForces m (Aircraft.holding s) s / (1043 : α)
        - s.angularVelocity.cross s.velocity := by
    show calculateForces m (Aircraft.holding s) s / (1043.0 : α)
      - s.angularVelocity.cross s.velocity = _
    rw [h1043]
  rw [hcode, calculateForces_holding, hq]
  unfold Spec.velocityDot
  simp only [halpha, hbeta]
  ext
  · simp only [Vector3.sub_x, Vector3.div_x, Vector3.add_x, Spec.aero, Spec.thrust,
      Spec.gravity, Vector3.cross, Aircraft.getCL, Aircraft.getCD, Aircraft.getCY,
      Aircraft.holding]
    ring
  · simp only [Vector3.sub_y, Vector3.div_y, Vector3.add_y, Spec.aero, Spec.thrust,
      Spec.gravity, Vector3.cross, Aircraft.getCL, Aircraft.getCD, Aircraft.getCY,
      Aircraft.holding]
  · simp only [Vector3.sub_z, Vector3.div_z, Vector3.add_z, Spec.aero, Spec.thrust,
      Spec.gravity, Vector3.cross, Aircraft.getCL, Aircraft.getCD, Aircraft.getCY,
      Aircraft.holding]
    ring

/-- C20 (as amended): for every hypothetical state `s`, whatever the aircraft
stores, `computeDerivative(s).velocityDot = F/m - omega × v` with `m = 1043`,
`omega × v = (q·w - r·v, r·u - p·w, p·v - q·u)`, `F = aero + thrust + gravity`,
`aero = qS·(-CD·cos a + CL·sin a, CY, -CD·sin a - CL·cos a)`,
`thrust = (s.throttle·2000, 0, 0)`,
`gravity = m·9.81·(-sin pitch, sin roll·cos pitch, cos roll·cos pitch)`, where
the dynamic pressure is `1/2·rho·max(V, 0.1)²` for the airspeed `V` of `s`;
when `V ≥ 0.1` it is `1/2·rho·V²`. -/
theorem C20_velocity_derivative (m : Libm α) (stored s : AircraftState α) :
    (computeDerivative m (Aircraft.holding stored) s).1.velocityDot =
      Spec.velocityDot m s (Spec.dynamicPressureAt m s (max (Spec.airspeed m s) 0.1)) ∧
    (0.1 ≤ Spec.airspeed m s →
      (computeDerivative m (Aircraft.holding stored) s).1.velocityDot =
        Spec.velocityDot m s (Spec.dynamicPressureAt m s (Spec.airspeed m s))) := by
  refine ⟨velocityDot_holding m stored s, fun hV => ?_⟩
  rw [velocityDot_holding, max_eq_left hV]

/-- C20, witness: the constructor's state, flying at 50 m/s. -/
theorem C20_velocity_derivative_witness :
    (0.1 : ℚ) ≤ Spec.airspeed rationalLibm (Aircraft.ctor : Aircraft ℚ).state ∧
    (computeDerivative rationalLibm (Aircraft.holding grounded.state)
        (Aircraft.ctor : Aircraft ℚ).state).1.velocityDot =
      Spec.velocityDot rationalLibm (Aircraft.ctor : Aircraft ℚ).state
        (Spec.dynamicPressureAt rationalLibm (Aircraft.ctor : Aircraft ℚ).state
          (Spec.airspeed rationalLibm (Aircraft.ctor : Aircraft ℚ).state)) := by
  have hV : (0.1 : ℚ) ≤ Spec.airspeed rationalLibm (Aircraft.ctor : Aircraft ℚ).state := by
    show (0.1 : ℚ) ≤ (if (50 * 50 + 0 * 0 + 0 * 0 : ℚ) ≤ 0 then 0
      else (1 + (50 * 50 + 0 * 0 + 0 * 0)) / 2)
    norm_num
  exact ⟨hV, (C20_velocity_derivative rationalLibm grounded.state
    (Aircraft.ctor : Aircraft ℚ).state).2 hV⟩

/-- The forward component of `Spec.velocityDot` at `slowState` under
`sampleLibm`, for any dynamic pressure `q`: only the drag term is left. -/
theorem slowState_velocityDot_x (q : ℚ) :
    (Spec.velocityDot sampleLibm slowState q).x
      = q * 16.2 * (-(0.027 + 0.045 * 0.28 ^ 2)) / 1043 := by
  have ha : Spec.alpha sampleLibm slowState = 0 := by
    show (if (1 / 20 : ℚ) > 0.1 then sampleLibm.atan2 0 (1 / 20) else 0) = 0
    rw [if_neg (by norm_num)]
  have hc : sampleLibm.cos 0 = 1 := by
    show (1 : ℚ) - 0 ^ 2 / 2 = 1
    norm_num
  have hs : sampleLibm.sin 0 = 0 := by
    show (0 : ℚ) - 0 ^ 3 / 6 = 0
    norm_num
  have he : slowState.elevator = 0 := lit_zero
  have hp : slowState.pitch = 0 := lit_zero
  have ht : slowState.throttle = 0 := rfl
  have hw : slowState.angularVelocity = ⟨0, 0, 0⟩ := rfl
  show (q * 16.2 * (-(0.027 + 0.045 * (0.28 + 4.58 * Spec.alpha sampleLibm slowState
      + 0.36 * slowState.elevator) ^ 2) * sampleLibm.cos (Spec.alpha sampleLibm slowState)
      + (0.28 + 4.58 * Spec.alpha sampleLibm slowState + 0.36 * slowState.elevator)
        * sampleLibm.sin (Spec.alpha sampleLibm slowState))
      + slowState.throttle * 2000 + 1043 * 9.81 * (-sampleLibm.sin slowState.pitch)) / 1043
      - (slowState.angularVelocity.y * slowState.velocity.z
        - slowState.angularVelocity.z * slowState.velocity.y) = _
  rw [ha, he, hp, ht, hw, hc, hs]
  norm_num

/-- C20, counterexample to the claim read with the dynamic pressure
`q = 1/2·rho·V²`: at an airspeed of 0.05 m/s the forward acceleration computed
by `computeDerivative` is not the one of the formula; the code uses `V = 0.1`
in `q`. -/
theorem C20_counterexample :
    ¬ ((computeDerivative sampleLibm (Aircraft.holding slowState) slowState).1.velocityDot =
        Spec.velocityDot sampleLibm slowState
          (Spec.dynamicPressureAt sampleLibm slowState (Spec.airspeed sampleLibm slowState))) := by
  have hV : Spec.airspeed sampleLibm slowState = 1 / 20 := slowState_airspeed
  intro hc
  have hx := congrArg Vector3.x ((velocityDot_holding sampleLibm slowState slowState).symm.trans hc)
  rw [slowState_velocityDot_x, slowState_velocityDot_x, hV] at hx
  unfold Spec.dynamicPressureAt at hx
  rw [slowState_density] at hx
  norm_num at hx

end VelocityFormula

/-! ## Frame transform, rotational energy and weight (C22, C23, C30) -/

section Kinematics

variable {α : Type} [LinearOrderedField α]

open FlightDynamics

theorem rationalLibm_sin_cos (x : ℚ) : rationalLibm.sin x ^ 2 + rationalLibm.cos x ^ 2 = 1 := by
  show (x / (1 + x ^ 2 / 4)) ^ 2 + ((1 - x ^ 2 / 4) / (1 + x ^ 2 / 4)) ^ 2 = 1
  have h : (1 + x ^ 2 / 4) ≠ 0 := by positivity
  field_simp
  ring

theorem rationalLibm_sin_zero : rationalLibm.sin 0 = 0 := by
  show (0 : ℚ) / (1 + 0 ^ 2 / 4) = 0
  norm_num

theorem rationalLibm_cos_zero : rationalLibm.cos 0 = 1 := by
  show ((1 : ℚ) - 0 ^ 2 / 4) / (1 + 0 ^ 2 / 4) = 1
  norm_num

/-- The position derivative computed by `computeDerivative` (lines 140 to 148). -/
theorem computeDerivative_positionDot (m : Libm α) (a : Aircraft α) (s : AircraftState α) :
    (computeDerivative m a s).1.positionDot =
      ⟨m.cos s.yaw * m.cos s.pitch * s.velocity.x +
         (m.cos s.yaw * m.sin s.pitch * m.sin s.roll - m.sin s.yaw * m.cos s.roll)
           * s.velocity.y +
         (m.cos s.yaw * m.sin s.pitch * m.cos s.roll + m.sin s.yaw * m.sin s.roll)
           * s.velocity.z,
       m.sin s.yaw * m.cos s.pitch * s.velocity.x +
         (m.sin s.yaw * m.sin s.pitch * m.sin s.roll + m.cos s.yaw * m.cos s.roll)
           * s.velocity.y +
         (m.sin s.yaw * m.sin s.pitch * m.cos s.roll - m.cos s.yaw * m.sin s.roll)
           * s.velocity.z,
       -m.sin s.pitch * s.velocity.x + m.cos s.pitch * m.sin s.roll * s.velocity.y +
         m.cos s.pitch * m.cos s.roll * s.velocity.z⟩ := rfl

/-- C22: when `sin² + cos² = 1`, the position derivative computed by
`computeDerivative` has the same sum of squares as the body velocity, for every
roll, pitch and yaw; and when moreover `sin 0 = 0` and `cos 0 = 1`, it equals
the body velocity at `roll = pitch = yaw = 0`. -/
theorem C22_transform_preserves_speed (m : Libm α)
    (hsc : ∀ x : α, m.sin x ^ 2 + m.cos x ^ 2 = 1)
    (a : Aircraft α) (s : AircraftState α) :
    (computeDerivative m a s).1.positionDot.normSq = s.velocity.normSq ∧
    (m.sin 0 = 0 → m.cos 0 = 1 → s.roll = 0 → s.pitch = 0 → s.yaw = 0 →
      (computeDerivative m a s).1.positionDot = s.velocity) := by
  constructor
  · have hr := hsc s.roll
    have hp := hsc s.pitch
    have hy := hsc s.yaw
    rw [computeDerivative_positionDot]
    simp only [Vector3.normSq]
    linear_combination
      ((m.cos s.pitch * s.velocity.x
          + m.sin s.pitch * (m.sin s.roll * s.velocity.y + m.cos s.roll * s.velocity.z)) ^ 2
        + (m.cos s.roll * s.velocity.y - m.sin s.roll * s.velocity.z) ^ 2) * hy
      + (s.velocity.x ^ 2
          + (m.sin s.roll * s.velocity.y + m.cos s.roll * s.velocity.z) ^ 2) * hp
      + (s.velocity.y ^ 2 + s.velocity.z ^ 2) * hr
  · intro h0 h1 hroll hpitch hyaw
    rw [computeDerivative_positionDot, hroll, hpitch, hyaw, h0, h1]
    ext <;> simp

/-- C22, witness: a banked, pitched and yawed attitude, and the level attitude
of the constructor's state. -/
theorem C22_transform_preserves_speed_witness :
    (∀ x : ℚ, rationalLibm.sin x ^ 2 + rationalLibm.cos x ^ 2 = 1) ∧
    (computeDerivative rationalLibm Aircraft.ctor
        { (Aircraft.ctor : Aircraft ℚ).state with
          velocity := ⟨40, 3, -2⟩, roll := 1 / 2, pitch := 1 / 5, yaw := 2 }).1.positionDot.normSq
      = (⟨40, 3, -2⟩ : Vector3 ℚ).normSq ∧
    rationalLibm.sin 0 = 0 ∧ rationalLibm.cos 0 = 1 ∧
    (computeDerivative rationalLibm Aircraft.ctor
        (Aircraft.ctor : Aircraft ℚ).state).1.positionDot
      = (Aircraft.ctor : Aircraft ℚ).state.velocity :=
  ⟨rationalLibm_sin_cos,
    (C22_transform_preserves_speed rationalLibm rationalLibm_sin_cos Aircraft.ctor _).1,
    rationalLibm_sin_zero, rationalLibm_cos_zero,
    (C22_transform_preserves_speed rationalLibm rationalLibm_sin_cos Aircraft.ctor
      (Aircraft.ctor : Aircraft ℚ).state).2 rationalLibm_sin_zero rationalLibm_cos_zero
      lit_zero lit_zero lit_zero⟩

/-- The angular acceleration computed by `computeDerivative` (lines 168 to
170), for the constructor's inertias. -/
theorem computeDerivative_angularVelocityDot (m : Libm α) (stored s : AircraftState α) :
    (computeDerivative m (Aircraft.holding stored) s).1.angularVelocityDot =
      ⟨((calculateMoments m (Aircraft.holding s) s).x
          - (2666.9 - 1824.9) * s.angularVelocity.y * s.angularVelocity.z) / 1285.3,
       ((calculateMoments m (Aircraft.holding s) s).y
          - (1285.3 - 2666.9) * s.angularVelocity.x * s.angularVelocity.z) / 1824.9,
       ((calculateMoments m (Aircraft.holding s) s).z
          - (1824.9 - 1285.3) * s.angularVelocity.x * s.angularVelocity.y) / 2666.9⟩ := rfl

/-- C23: with `(L, M, N)` the moments returned by `calculateMoments(s)` and
`(pDot, qDot, rDot)` the angular acceleration of `computeDerivative(s)`,
`Ixx·p·pDot + Iyy·q·qDot + Izz·r·rDot = p·L + q·M + r·N`; in particular, when
the moments are zero, the time derivative of the rotational kinetic energy is
zero. -/
theorem C23_gyroscopic_no_work (m : Libm α) (stored s : AircraftState α) :
    Spec.kineticEnergyRate (Aircraft.holding stored) s
        (computeDerivative m (Aircraft.holding stored) s).1 =
      s.angularVelocity.x * (calculateMoments m (Aircraft.holding s) s).x
        + s.angularVelocity.y * (calculateMoments m (Aircraft.holding s) s).y
        + s.angularVelocity.z * (calculateMoments m (Aircraft.holding s) s).z ∧
    (calculateMoments m (Aircraft.holding s) s = ⟨0, 0, 0⟩ →
      Spec.kineticEnergyRate (Aircraft.holding stored) s
        (computeDerivative m (Aircraft.holding stored) s).1 = 0) := by
  have key : Spec.kineticEnergyRate (Aircraft.holding stored) s
        (computeDerivative m (Aircraft.holding stored) s).1 =
      s.angularVelocity.x * (calculateMoments m (Aircraft.holding s) s).x
        + s.angularVelocity.y * (calculateMoments m (Aircraft.holding s) s).y
        + s.angularVelocity.z * (calculateMoments m (Aircraft.holding s) s).z := by
    unfold Spec.kineticEnergyRate
    rw [computeDerivative_angularVelocityDot]
    show (1285.3 : α) * s.angularVelocity.x * _ + 1824.9 * s.angularVelocity.y * _
      + 2666.9 * s.angularVelocity.z * _ = _
    have h1 : (1285.3 : α) ≠ 0 := by norm_num
    have h2 : (1824.9 : α) ≠ 0 := by norm_num
    have h3 : (2666.9 : α) ≠ 0 := by norm_num
    field_simp
    ring
  refine ⟨key, fun h0 => ?_⟩
  rw [key, h0]
  simp

/-- The moments of `trimmedState` under `rationalLibm` are zero. -/
theorem trimmedState_moments :
    calculateMoments rationalLibm (Aircraft.holding trimmedState) trimmedState = ⟨0, 0, 0⟩ := by
  have hV : trimmedState.velocity.magnitude rationalLibm = 2501 / 2 := by
    show (if (50 * 50 + 0 * 0 + 0 * 0 : ℚ) ≤ 0 then 0
      else (1 + (50 * 50 + 0 * 0 + 0 * 0)) / 2) = 2501 / 2
    norm_num
  have hbeta : (Aircraft.holding trimmedState).getSideslip rationalLibm = 0 := by
    show (if trimmedState.velocity.magnitude rationalLibm > 0.1 then
      (trimmedState.velocity.y / trimmedState.velocity.magnitude rationalLibm) else 0.0) = 0
    rw [hV]
    have hy : trimmedState.velocity.y = 0 := rfl
    rw [hy]
    norm_num
  have halpha : (Aircraft.holding trimmedState).getAngleOfAttack rationalLibm = 0 := by
    show (if (50 : ℚ) > 0.1 then (if (50 : ℚ) = 0 then 0 else (0 : ℚ) / 50) else 0.0) = 0
    norm_num
  have hCl : (Aircraft.holding trimmedState).getCl rationalLibm 0 trimmedState.aileron
      trimmedState.rudder = 0 := by
    rw [getCl_holding, hV]
    show (-0.074 : ℚ) * 0 + 0.178 * (3205675 / 242742058) + 0.0147 * (-12826990 / 849597203)
      - 0.484 * (1 * 11.0) / (2 * (2501 / 2)) = 0
    norm_num
  have hCm : (Aircraft.holding trimmedState).getCm rationalLibm 0 trimmedState.elevator
      = 0 := by
    show (0.04 : ℚ) + -0.613 * 0 + -1.122 * (40906 / 1403061)
      + -12.4 * (1 * 1.47 / (2.0 * trimmedState.velocity.magnitude rationalLibm)) = 0
    rw [hV]
    norm_num
  have hCn : (Aircraft.holding trimmedState).getCn rationalLibm 0 trimmedState.aileron
      trimmedState.rudder = 0 := by
    show (0.071 : ℚ) * 0 + -0.0504 * (3205675 / 242742058)
      + -0.0805 * (-12826990 / 849597203)
      + -0.125 * (1 * 11.0 / (2.0 * trimmedState.velocity.magnitude rationalLibm)) = 0
    rw [hV]
    norm_num
  rw [calculateMoments_holding, hbeta, halpha, hCl, hCm, hCn]
  simp

/-- C23, witness: the trimmed state, which rotates about all three axes and
whose moments are zero. -/
theorem C23_gyroscopic_no_work_witness :
    calculateMoments rationalLibm (Aircraft.holding trimmedState) trimmedState = ⟨0, 0, 0⟩ ∧
    Spec.kineticEnergyRate (Aircraft.holding trimmedState) trimmedState
      (computeDerivative rationalLibm (Aircraft.holding trimmedState) trimmedState).1 = 0 :=
  ⟨trimmedState_moments,
    (C23_gyroscopic_no_work rationalLibm trimmedState trimmedState).2 trimmedState_moments⟩

/-- The sum of squares of the weight vector, given `sin² + cos² = 1` at the
roll and at the pitch angle. -/
theorem gravity_normSq (m : Libm α) (mass roll pitch : α)
    (hr : m.sin roll ^ 2 + m.cos roll ^ 2 = 1) (hp : m.sin pitch ^ 2 + m.cos pitch ^ 2 = 1) :
    (Spec.gravity m mass roll pitch).normSq = (mass * 9.81) ^ 2 := by
  simp only [Spec.gravity, Vector3.normSq]
  linear_combination (mass * 9.81) ^ 2 * m.cos pitch ^ 2 * hr + (mass * 9.81) ^ 2 * hp

/-- C30: the weight added in `calculateForces` is
`1043·9.81·(-sin pitch, sin roll·cos pitch, cos roll·cos pitch)`; when
`sin² + cos² = 1` at the roll and pitch angles its sum of squares is
`(1043·9.81)²`, so its Euclidean norm is `1043·9.81` (as computed by
`magnitude` when `sqrt` is exact there); at `roll = pitch = 0`, with
`sin 0 = 0` and `cos 0 = 1`, it is `(0, 0, 1043·9.81)`; and the acceleration
`9.81` differs from the `GRAVITY = 9.80665` of the atmosphere model. -/
theorem C30_weight_magnitude (m : Libm α) (roll pitch : α)
    (hr : m.sin roll ^ 2 + m.cos roll ^ 2 = 1) (hp : m.sin pitch ^ 2 + m.cos pitch ^ 2 = 1) :
    (∀ s : AircraftState α,
      calculateForces m (Aircraft.holding s) s =
        Spec.aero m (dynamicPressure m s * 16.2)
            ((Aircraft.holding s).getCL ((Aircraft.holding s).getAngleOfAttack m) s.elevator)
            ((Aircraft.holding s).getCD ((Aircraft.holding s).getAngleOfAttack m))
            ((Aircraft.holding s).getCY ((Aircraft.holding s).getSideslip m) s.rudder)
            ((Aircraft.holding s).getAngleOfAttack m)
          + Spec.thrust s.throttle + Spec.gravity m 1043 s.roll s.pitch) ∧
    (Spec.gravity m 1043 roll pitch).normSq = (1043 * 9.81) ^ 2 ∧
    (0 : α) < 1043 * 9.81 ∧
    (m.sqrt ((1043 * 9.81) ^ 2) = 1043 * 9.81 →
      (Spec.gravity m 1043 roll pitch).magnitude m = 1043 * 9.81) ∧
    (m.sin 0 = 0 → m.cos 0 = 1 → Spec.gravity m 1043 0 0 = ⟨0, 0, 1043 * 9.81⟩) ∧
    (9.81 : α) ≠ Atmosphere.GRAVITY := by
  have hn := gravity_normSq m 1043 roll pitch hr hp
  refine ⟨fun s => calculateForces_holding m s, hn, by norm_num, fun hs => ?_,
    fun h0 h1 => ?_, ?_⟩
  · have hsum : (Spec.gravity m 1043 roll pitch).x * (Spec.gravity m 1043 roll pitch).x
        + (Spec.gravity m 1043 roll pitch).y * (Spec.gravity m 1043 roll pitch).y
        + (Spec.gravity m 1043 roll pitch).z * (Spec.gravity m 1043 roll pitch).z
        = (1043 * 9.81) ^ 2 := by
      rw [← hn]
      unfold Vector3.normSq
      ring
    unfold Vector3.magnitude
    rw [hsum, hs]
  · unfold Spec.gravity
    rw [h0, h1]
    ext <;> simp
  · unfold Atmosphere.GRAVITY
    norm_num

/-- The square root of `(1043·9.81)²` under `sampleLibm` is exact. -/
theorem sampleLibm_sqrt_weight :
    sampleLibm.sqrt ((1043 * 9.81) ^ 2) = 1043 * 9.81 := by
  have hx : ((1043 * 9.81 : ℚ)) ^ 2 = 1046903451489 / 10000 := by norm_num
  have hn : (1046903451489 / 10000 : ℚ).num = 1046903451489 := by norm_num
  have hd : (1046903451489 / 10000 : ℚ).den = 10000 := by norm_num
  have hs : Nat.sqrt (Int.toNat 1046903451489 * 10000) = 102318300 := by
    have he : Int.toNat 1046903451489 * 10000 = 102318300 * 102318300 := by decide
    rw [he]
    exact Nat.sqrt_eq 102318300
  show ((Nat.sqrt (((1043 * 9.81 : ℚ) ^ 2).num.toNat * ((1043 * 9.81 : ℚ) ^ 2).den) : ℕ) : ℚ)
      / ((((1043 * 9.81 : ℚ)) ^ 2).den : ℚ) = 1043 * 9.81
  rw [hx, hn, hd, hs]
  norm_num

/-- C30, witness: a banked and pitched attitude under `rationalLibm`, and the
level attitude under `sampleLibm`, whose square root is exact at the weight. -/
theorem C30_weight_magnitude_witness :
    (rationalLibm.sin (1 / 2) ^ 2 + rationalLibm.cos (1 / 2) ^ 2 = 1 ∧
     rationalLibm.sin (1 / 5) ^ 2 + rationalLibm.cos (1 / 5) ^ 2 = 1 ∧
     (Spec.gravity rationalLibm 1043 (1 / 2) (1 / 5)).normSq = (1043 * 9.81) ^ 2) ∧
    (sampleLibm.sin 0 ^ 2 + sampleLibm.cos 0 ^ 2 = 1 ∧
     sampleLibm.sqrt ((1043 * 9.81) ^ 2) = 1043 * 9.81 ∧
     sampleLibm.sin 0 = 0 ∧ sampleLibm.cos 0 = 1 ∧
     (Spec.gravity sampleLibm 1043 0 0).magnitude sampleLibm = 1043 * 9.81 ∧
     Spec.gravity sampleLibm 1043 0 0 = ⟨0, 0, 1043 * 9.81⟩) := by
  have h0 : sampleLibm.sin 0 = 0 := by
    show (0 : ℚ) - 0 ^ 3 / 6 = 0
    norm_num
  have h1 : sampleLibm.cos 0 = 1 := by
    show (1 : ℚ) - 0 ^ 2 / 2 = 1
    norm_num
  have hsc : sampleLibm.sin 0 ^ 2 + sampleLibm.cos 0 ^ 2 = 1 := by
    rw [h0, h1]
    norm_num
  have k1 := C30_weight_magnitude rationalLibm (1 / 2) (1 / 5) (rationalLibm_sin_cos _)
    (rationalLibm_sin_cos _)
  have k2 := C30_weight_magnitude sampleLibm 0 0 hsc hsc
  exact ⟨⟨rationalLibm_sin_cos _, rationalLibm_sin_cos _, k1.2.1⟩,
    ⟨hsc, sampleLibm_sqrt_weight, h0, h1, k2.2.2.2.1 sampleLibm_sqrt_weight,
      k2.2.2.2.2.1 h0 h1⟩⟩

end Kinematics

/-! ## Yaw wrapping and the zero-length step (C2, C25, C26) -/

section YawLoops

variable {α : Type} [LinearOrderedField α] [FloorRing α]

open FlightDynamics

/-- A yaw already inside `[-M_PI, M_PI]` passes both loops unchanged. -/
theorem wrapYaw_of_mem (s : AircraftState α) (hlo : -M_PI ≤ s.yaw) (hhi : s.yaw ≤ M_PI) :
    wrapYaw s = s := by
  unfold wrapYaw
  rw [wrapAbove_of_le _ hhi, wrapBelow_of_ge _ hlo]

/-- C25, the program at a state that meets the claim's conditions: the
aircraft at rest on the ground has `position.z ≤ 0` and yaw in
`[-M_PI, M_PI]`, and `update(0)` starts its first derivative evaluation at this
stored state, where the divisor `2.0 * getAirspeed()` of `getCl`, `getCm` and
`getCn` is zero and each damping term is `0/0`. -/
theorem C25_rest_state_zero_step :
    (grounded.state.position.z ≤ 0 ∧ -M_PI ≤ grounded.state.yaw ∧
      grounded.state.yaw ≤ M_PI) ∧
    (stages rationalLibm grounded 0).k1
      = (computeDerivative rationalLibm grounded grounded.state).1 ∧
    (grounded.state.angularVelocity.x * grounded.wingSpan = 0 ∧
      grounded.state.angularVelocity.y * grounded.chord = 0 ∧
      grounded.state.angularVelocity.z * grounded.wingSpan = 0) ∧
    Aircraft.rateDivisor rationalLibm grounded = 0 ∧
    ¬ StagesDefined rationalLibm grounded 0 := by
  have hpi : (0 : ℚ) < M_PI := M_PI_pos
  have hy : grounded.state.yaw = 0 := lit_zero
  have hz : grounded.state.position.z ≤ 0 := le_refl _
  have hd : Aircraft.rateDivisor rationalLibm grounded = 0 := by
    show (2.0 : ℚ) * (if (0 * 0 + 0 * 0 + 0 * 0 : ℚ) ≤ 0 then 0
      else (1 + (0 * 0 + 0 * 0 + 0 * 0)) / 2) = 0
    norm_num
  have hp : grounded.state.angularVelocity.x * grounded.wingSpan = 0 := zero_mul _
  have hq : grounded.state.angularVelocity.y * grounded.chord = 0 := zero_mul _
  have hr : grounded.state.angularVelocity.z * grounded.wingSpan = 0 := zero_mul _
  refine ⟨⟨hz, ?_, ?_⟩, rfl, ⟨hp, hq, hr⟩, hd, fun hdef => hdef.1 hd⟩
  · rw [hy]
    linarith
  · rw [hy]
    linarith

end YawLoops

/-! ## Symmetric flight at rest (C24) -/

section SymmetricFlight

variable {α : Type} [LinearOrderedField α]

open FlightDynamics

/-- C24, the program at a symmetric state: the aircraft at rest on the ground
is in symmetric flight with `u = w = 0`; the first derivative evaluation of
`update` computes the roll and yaw damping terms of `getCl` and `getCn` as
`0·b` divided by `2.0 * getAirspeed() = 0`, that is `0/0`. -/
theorem C24_rest_state_symmetric :
    Symmetric grounded.state ∧
    (grounded.state.velocity.x = 0 ∧ grounded.state.velocity.z = 0) ∧
    (∀ dt : ℚ, (stages rationalLibm grounded dt).k1
      = (computeDerivative rationalLibm grounded grounded.state).1) ∧
    (grounded.state.angularVelocity.x * grounded.wingSpan = 0 ∧
      grounded.state.angularVelocity.z * grounded.wingSpan = 0) ∧
    Aircraft.rateDivisor rationalLibm grounded = 0 ∧
    ¬ StagesDefined rationalLibm grounded (1 / 60) := by
  have hd : Aircraft.rateDivisor rationalLibm grounded = 0 := by
    show (2.0 : ℚ) * (if (0 * 0 + 0 * 0 + 0 * 0 : ℚ) ≤ 0 then 0
      else (1 + (0 * 0 + 0 * 0 + 0 * 0)) / 2) = 0
    norm_num
  exact ⟨⟨rfl, rfl, rfl, lit_zero, lit_zero, lit_zero⟩, ⟨rfl, rfl⟩, fun _ => rfl,
    ⟨zero_mul _, zero_mul _⟩, hd, fun hdef => hdef.1 hd⟩

end SymmetricFlight

/-! ## Sideslip domain and control deflection bound (C27, C28) -/

section Domains

variable {α : Type} [LinearOrderedField α]

open FlightDynamics

theorem rationalLibm_sqrt_sq (x : ℚ) (_hx : 0 ≤ x) :
    x ≤ rationalLibm.sqrt x * rationalLibm.sqrt x := by
  show x ≤ (if x ≤ 0 then (0 : ℚ) else (1 + x) / 2) * (if x ≤ 0 then (0 : ℚ) else (1 + x) / 2)
  split
  · rename_i h
    linarith
  · nlinarith [sq_nonneg (1 - x)]

theorem rationalLibm_asin_range (t : ℚ) (h1 : -1 ≤ t) (h2 : t ≤ 1) :
    -(M_PI / 2) ≤ rationalLibm.asin t ∧ rationalLibm.asin t ≤ M_PI / 2 := by
  show -(M_PI / 2) ≤ t ∧ t ≤ M_PI / 2
  have hpi : (2 : ℚ) < M_PI := by
    unfold M_PI
    norm_num
  constructor <;> linarith

/-- C27: when `sqrt` does not under-estimate (`x ≤ sqrt(x)·sqrt(x)` for
`x ≥ 0`, which the real square root satisfies with equality) and `asin` maps
`[-1, 1]` into `[-M_PI/2, M_PI/2]`: for every stored velocity whose magnitude
exceeds `0.1`, the argument `v/|velocity|` passed to `asin` lies in `[-1, 1]`;
and `getSideslip` returns a value in `[-M_PI/2, M_PI/2]` for every state. -/
theorem C27_sideslip_domain (m : Libm α)
    (hsqrt : ∀ x : α, 0 ≤ x → x ≤ m.sqrt x * m.sqrt x)
    (hasin : ∀ t : α, -1 ≤ t → t ≤ 1 → -(M_PI / 2) ≤ m.asin t ∧ m.asin t ≤ M_PI / 2)
    (a : Aircraft α) :
    a.getAirspeed m = m.sqrt (a.state.velocity.x * a.state.velocity.x
      + a.state.velocity.y * a.state.velocity.y + a.state.velocity.z * a.state.velocity.z) ∧
    (0.1 < a.getAirspeed m →
      -1 ≤ a.state.velocity.y / a.getAirspeed m ∧ a.state.velocity.y / a.getAirspeed m ≤ 1) ∧
    (-(M_PI / 2) ≤ a.getSideslip m ∧ a.getSideslip m ≤ M_PI / 2) := by
  have hx : 0 ≤ a.state.velocity.x * a.state.velocity.x
      + a.state.velocity.y * a.state.velocity.y + a.state.velocity.z * a.state.velocity.z := by
    nlinarith [mul_self_nonneg a.state.velocity.x, mul_self_nonneg a.state.velocity.y,
      mul_self_nonneg a.state.velocity.z]
  have hV : a.getAirspeed m = m.sqrt (a.state.velocity.x * a.state.velocity.x
      + a.state.velocity.y * a.state.velocity.y + a.state.velocity.z * a.state.velocity.z) :=
    rfl
  have hsq : a.state.velocity.y * a.state.velocity.y ≤ a.getAirspeed m * a.getAirspeed m := by
    rw [hV]
    have := hsqrt _ hx
    nlinarith [mul_self_nonneg a.state.velocity.x, mul_self_nonneg a.state.velocity.z]
  have harg : 0.1 < a.getAirspeed m →
      -1 ≤ a.state.velocity.y / a.getAirspeed m ∧
        a.state.velocity.y / a.getAirspeed m ≤ 1 := by
    intro hgt
    have hpos : 0 < a.getAirspeed m := lt_trans (by norm_num) hgt
    have hsq2 : a.state.velocity.y ^ 2 ≤ a.getAirspeed m ^ 2 := by
      rw [sq, sq]
      exact hsq
    have hb := abs_le_of_sq_le_sq' hsq2 (le_of_lt hpos)
    constructor
    · rw [le_div_iff₀ hpos]
      linarith [hb.1]
    · rw [div_le_iff₀ hpos]
      linarith [hb.2]
  refine ⟨hV, harg, ?_⟩
  have hpi : (0 : α) < M_PI := M_PI_pos
  by_cases hgt : 0.1 < a.getAirspeed m
  · have hs : a.getSideslip m = m.asin (a.state.velocity.y / a.getAirspeed m) := by
      show (if a.getAirspeed m > 0.1 then m.asin (a.state.velocity.y / a.getAirspeed m)
        else 0.0) = _
      rw [if_pos hgt]
    rw [hs]
    exact hasin _ (harg hgt).1 (harg hgt).2
  · have hs : a.getSideslip m = 0 := by
      show (if a.getAirspeed m > 0.1 then m.asin (a.state.velocity.y / a.getAirspeed m)
        else 0.0) = _
      rw [if_neg hgt, lit_zero]
    rw [hs]
    constructor <;> linarith

/-- C27, witness: an aircraft slipping sideways at 30 m/s while flying forward
at 40 m/s. -/
theorem C27_sideslip_domain_witness :
    (∀ x : ℚ, 0 ≤ x → x ≤ rationalLibm.sqrt x * rationalLibm.sqrt x) ∧
    (∀ t : ℚ, -1 ≤ t → t ≤ 1 →
      -(M_PI / 2) ≤ rationalLibm.asin t ∧ rationalLibm.asin t ≤ M_PI / 2) ∧
    (0.1 : ℚ) < slipping.getAirspeed rationalLibm ∧
    -1 ≤ slipping.state.velocity.y / slipping.getAirspeed rationalLibm ∧
    slipping.state.velocity.y / slipping.getAirspeed rationalLibm ≤ 1 ∧
    -(M_PI / 2) ≤ slipping.getSideslip rationalLibm ∧
    slipping.getSideslip rationalLibm ≤ M_PI / 2 := by
  have key := C27_sideslip_domain rationalLibm rationalLibm_sqrt_sq rationalLibm_asin_range
    slipping
  have hV : (0.1 : ℚ) < slipping.getAirspeed rationalLibm := by
    show (0.1 : ℚ) < (if (40 * 40 + 30 * 30 + 0 * 0 : ℚ) ≤ 0 then 0
      else (1 + (40 * 40 + 30 * 30 + 0 * 0)) / 2)
    norm_num
  exact ⟨rationalLibm_sqrt_sq, rationalLibm_asin_range, hV, (key.2.1 hV).1, (key.2.1 hV).2,
    key.2.2.1, key.2.2.2⟩

/-- When `InputHandler::update` returns with the pause flag clear, the three
deflections it has written are within `0.98` of the centre; when it returns
with the flag set it has left the aircraft alone. -/
theorem input_update_deflections (h : InputHandler α) (window : Key → Bool) (a : Aircraft α)
    (dt : α) :
    ((InputHandler.update h window a dt).1.paused = false ∧
      deflectionsBelowFull (InputHandler.update h window a dt).2.state) ∨
    ((InputHandler.update h window a dt).1.paused = true ∧
      (InputHandler.update h window a dt).2 = a) := by
  unfold InputHandler.update
  dsimp only
  by_cases hp : (InputHandler.pollToggles h window).paused = true
  · rw [if_pos hp]
    exact Or.inr ⟨hp, rfl⟩
  · rw [if_neg hp]
    refine Or.inl ⟨by simpa using hp, ?_⟩
    exact ⟨abs_le.mpr (applyDeadzone_bounds _),
      abs_le.mpr (applyDeadzone_bounds _),
      abs_le.mpr (applyDeadzone_bounds _)⟩

theorem ctor_deflectionsBelowFull : deflectionsBelowFull (Aircraft.ctor : Aircraft α).state := by
  show |(0.0 : α)| ≤ 0.98 ∧ |(0.0 : α)| ≤ 0.98 ∧ |(0.0 : α)| ≤ 0.98
  rw [lit_zero, abs_zero]
  norm_num

theorem deflectionsBelowFull_of_sameControls (s t : AircraftState α) (h : sameControls s t)
    (ht : deflectionsBelowFull t) : deflectionsBelowFull s := by
  unfold deflectionsBelowFull at *
  rw [h.1, h.2.1, h.2.2.1]
  exact ht

theorem ne_one_of_abs_le (x : α) (h : |x| ≤ 0.98) : x ≠ 1 ∧ x ≠ -1 := by
  have hb := abs_le.mp h
  constructor
  · intro h1
    rw [h1] at hb
    norm_num at hb
  · intro h1
    rw [h1] at hb
    norm_num at hb

/-- C28: after an unpaused `InputHandler::update`, for every prior handler,
key combination and time step, the written elevator, aileron and rudder
satisfy `|value| ≤ 0.98`; hence in every state reachable from the constructors
by `InputHandler::update`, `FlightDynamics::reset` and `FlightDynamics::update`
the three deflections are within `0.98` of the centre and none of them is
exactly `1` or `-1`. -/
theorem C28_full_deflection_unreachable [FloorRing α] (m : Libm α) :
    (∀ (h : InputHandler α) (window : Key → Bool) (a : Aircraft α) (dt : α),
      (InputHandler.update h window a dt).1.paused = false →
        deflectionsBelowFull (InputHandler.update h window a dt).2.state) ∧
    (∀ p : InputHandler α × Aircraft α, SimReachable m p →
      deflectionsBelowFull p.2.state ∧
      (p.2.state.elevator ≠ 1 ∧ p.2.state.elevator ≠ -1) ∧
      (p.2.state.aileron ≠ 1 ∧ p.2.state.aileron ≠ -1) ∧
      (p.2.state.rudder ≠ 1 ∧ p.2.state.rudder ≠ -1)) := by
  have inv : ∀ p : InputHandler α × Aircraft α, SimReachable m p →
      deflectionsBelowFull p.2.state := by
    intro p hp
    induction hp with
    | ctor => exact ctor_deflectionsBelowFull
    | input h a window dt _ ih =>
      rcases input_update_deflections h window a dt with ⟨_, hr⟩ | ⟨_, hr⟩
      · exact hr
      · rw [hr]
        exact ih
    | reset h a _ ih => exact ih
    | step h a dt _ ih =>
      exact deflectionsBelowFull_of_sameControls _ _ (update_sameControls m a dt) ih
  constructor
  · intro h window a dt hf
    rcases input_update_deflections h window a dt with ⟨_, hr⟩ | ⟨hp, _⟩
    · exact hr
    · rw [hp] at hf
      exact absurd hf (by decide)
  · intro p hp
    have h := inv p hp
    exact ⟨h, ne_one_of_abs_le _ h.1, ne_one_of_abs_le _ h.2.1, ne_one_of_abs_le _ h.2.2⟩

/-- C28, witness: from the constructors, `W` held for one tick. -/
theorem C28_full_deflection_unreachable_witness :
    (InputHandler.update (InputHandler.ctor : InputHandler ℚ) pressW Aircraft.ctor
        (1 / 60)).1.paused = false ∧
    deflectionsBelowFull (InputHandler.update (InputHandler.ctor : InputHandler ℚ) pressW
        Aircraft.ctor (1 / 60)).2.state ∧
    SimReachable sampleLibm
      (InputHandler.update (InputHandler.ctor : InputHandler ℚ) pressW Aircraft.ctor (1 / 60)) ∧
    (InputHandler.update (InputHandler.ctor : InputHandler ℚ) pressW Aircraft.ctor
        (1 / 60)).2.state.elevator ≠ 1 := by
  have hW : (InputHandler.update (InputHandler.ctor : InputHandler ℚ) pressW Aircraft.ctor
      (1 / 60)).1.paused = false := rfl
  have hr : SimReachable sampleLibm
      (InputHandler.update (InputHandler.ctor : InputHandler ℚ) pressW Aircraft.ctor (1 / 60)) :=
    SimReachable.input _ _ _ _ SimReachable.ctor
  have key := C28_full_deflection_unreachable sampleLibm
  exact ⟨hW, key.1 _ _ _ _ hW, hr, (key.2 _ hr).2.1.1⟩

end Domains

/-! ## Monotone atmosphere (C29) -/

section Monotone

variable {α : Type} [LinearOrderedField α]

open Atmosphere

end Monotone

end FlightSim
